import Mathlib

set_option maxHeartbeats 1000000

/-!
Shallow embedding of the QIIME2 pipeline orchestrator
(`src/grigsby_qiime2_script.py`).

The script is a linear, interactive pipeline driver.  We model its three
external effect sources as oracles:

* the filesystem (`FS`): `os.path.isdir`, `os.path.isfile`, `os.path.exists`
  become three boolean oracles on path strings (a static snapshot of the
  answers the run observes);
* the subprocess layer (`Env.proc`): each `subprocess.run(command, shell=True,
  check=True, ...)` call either exits 0 (`POutcome.ok`), raises
  `CalledProcessError` with a captured stderr (`POutcome.err`), or raises some
  other, uncaught exception (`POutcome.exn`);
* the operator (`Env.inputs`): the n-th `input()` call returns `inputs n`.

Each modelled function returns the list of observable events (`Ev`) it emits,
in order: `fly_message` calls become `Ev.info text kind` (the emoji/format
decoration of `fly_message` is presentation only and not modelled; apostrophes
in message texts are dropped), `input()` calls become prompt events,
spinner lifecycle points become `spinnerStart`/`spinnerSet`/`spinnerJoin`
(where `spinnerSet` is `stop_spinner.set()` and `spinnerJoin` is
`spinner_thread.join()`), and `webbrowser.open` becomes `openView`.
In addition, at each stage we record the semantic events of the spec's
engine model: `check` at each `check_output_exists` call belonging to a
stage, `execute` at each `run_command` call site, and `result` for the
per-stage `ExecutionResult` (Skipped / Succeeded / Failed), tagged with the
stage's description string.  The Python command strings use backslash line
continuations inside string literals; the resulting whitespace runs are
collapsed to single spaces here, and the two shell quotes in the step-1
`--type` argument are dropped (the command strings are opaque keys).
-/

/-- Filesystem oracle: a static snapshot of the answers `os.path.isdir`,
`os.path.isfile` and `os.path.exists` give during one run. -/
structure FS where
  isDir : String → Bool
  isFile : String → Bool
  pathExists : String → Bool

/-- Outcome of one `subprocess.run(command, shell=True, check=True, ...)`
call: exit code 0, a `CalledProcessError` carrying the captured stderr, or
any other (uncaught) exception. -/
inductive POutcome where
  | ok
  | err (stderr : String)
  | exn
deriving DecidableEq

/-- The spec's per-stage `ExecutionResult` variants. -/
inductive StageRes where
  | skipped
  | ok
  | failed
deriving DecidableEq

/-- Observable events emitted by the script, in program order. -/
inductive Ev where
  | info (text kind : String)
  | check (stage : String) (files : List String)
  | execute (stage : String) (command : String)
  | result (stage : String) (res : StageRes)
  | paramPrompt (stage text : String)
  | viewPrompt (stage text : String)
  | waitPrompt (text : String)
  | openView (path : String)
  | spinnerStart (descr : String)
  | spinnerSet
  | spinnerJoin
deriving DecidableEq

/-- The stage a semantic event belongs to (`none` for plain output,
prompts between stages, and spinner events). -/
def Ev.stageTag : Ev → Option String
  | .check stage _ => some stage
  | .execute stage _ => some stage
  | .result stage _ => some stage
  | .paramPrompt stage _ => some stage
  | .viewPrompt stage _ => some stage
  | _ => none

/-- The `files` argument of `check_output_exists`: the Python function
accepts either a single path string or a list of paths. -/
inductive Files where
  | str (s : String)
  | list (l : List String)

/-- The `isinstance(files, str)` normalisation at the top of
`check_output_exists`. -/
def Files.toList : Files → List String
  | .str s => [s]
  | .list l => l

/-- `check_output_exists(files)`: true iff `os.path.exists` holds of every
path (after wrapping a bare string into a one-element list). -/
def check_output_exists (fs : FS) (files : Files) : Bool :=
  files.toList.all fs.pathExists

/-- Python's `str.strip()` (no argument): remove leading and trailing
whitespace.  Implemented structurally over the character list so that it
evaluates by kernel reduction. -/
def pyStrip (s : String) : String :=
  String.mk (((s.data.dropWhile Char.isWhitespace).reverse.dropWhile Char.isWhitespace).reverse)

/-- Python's `str.lower()` restricted to ASCII case mapping (all inputs the
script compares against are ASCII).  Implemented structurally so that it
evaluates by kernel reduction. -/
def pyLower (s : String) : String := String.mk (s.data.map Char.toLower)

/-- `run_command(command, description)`: emits the start message, starts the
spinner thread, runs the command; on exit 0 sets the stop event, joins the
spinner thread and emits the success message (returns `some true`); on
`CalledProcessError` sets the stop event, joins and emits the two error
messages (returns `some false`); any other exception propagates (`none`)
without the stop event ever being set. -/
def run_command (proc : String → POutcome) (command descr : String) :
    List Ev × Option Bool :=
  let pre := [Ev.info ("Running: " ++ descr ++ "...") "running",
              Ev.spinnerStart descr]
  match proc command with
  | .ok =>
      (pre ++ [Ev.spinnerSet, Ev.spinnerJoin,
               Ev.info ("Successfully completed: " ++ descr) "success"],
       some true)
  | .err stderr =>
      (pre ++ [Ev.spinnerSet, Ev.spinnerJoin,
               Ev.info ("ERROR: Command failed: " ++ command) "error",
               Ev.info ("ERROR: Error details: " ++ stderr) "error"],
       some false)
  | .exn => (pre, none)

/-- `open_qzv_file(file_path)`: if the file exists, opens the QIIME2 View
site and prints the drag-and-drop instructions; otherwise warns.  (The
`os.path.abspath` echo line is folded into the instruction events.) -/
def open_qzv_file (fs : FS) (file_path : String) : List Ev :=
  if fs.pathExists file_path then
    [Ev.info ("Opening QIIME2 View site for " ++ file_path ++ "...") "info",
     Ev.openView file_path,
     Ev.info ("To view " ++ file_path ++ ", please:") "info",
     Ev.info ("1. Drag and drop " ++ file_path ++ " onto the QIIME2 View site that just opened") "info",
     Ev.info "2. Or use the Choose File button on the QIIME2 View site" "info"]
  else
    [Ev.info ("Could not find " ++ file_path ++ " to open") "warning"]

/-- `check_prerequisites()`: requires the `paired-end-demultiplexed`
directory, the `metadata.tsv` file and the `classifier.qza` file; reports the
first missing one and returns false, else reports success and returns
true. -/
def check_prerequisites (fs : FS) : List Ev × Bool :=
  let intro := [Ev.info "Checking for required files and directories..." "info"]
  if !fs.isDir "paired-end-demultiplexed" then
    (intro ++ [Ev.info "Missing paired-end-demultiplexed directory with FASTQ files!" "error"], false)
  else if !fs.isFile "metadata.tsv" then
    (intro ++ [Ev.info "Missing metadata.tsv file!" "error"], false)
  else if !fs.isFile "classifier.qza" then
    (intro ++ [Ev.info "Missing classifier.qza file!" "error"], false)
  else
    (intro ++ [Ev.info "All required files are present!" "success"], true)

/-- The yes/no test used at the custom-primer and custom-truncation prompts:
`resp == "yes" or resp == "y"` (applied to the stripped, lowercased
response). -/
def yesEq (r : String) : Bool := r == "yes" || r == "y"

/-- The yes/no test used at the view prompts: `resp in ["yes", "y"]`
(applied to the stripped, lowercased response). -/
def yesIn (r : String) : Bool := ["yes", "y"].contains r

/-- The oracles a run reads from: filesystem snapshot, subprocess outcomes
(keyed by the exact command string) and the operator's answers (keyed by
the number of `input()` calls made so far). -/
structure Env where
  fs : FS
  proc : String → POutcome
  inputs : Nat → String

/-- Control flow after a piece of `main`: fall through to the next
statement, `return` from `main`, or propagate an uncaught exception. -/
inductive Ctl where
  | cont
  | ret
  | exn
deriving DecidableEq

/-- One block of `main`: given the oracles and the number of `input()` calls
made so far, yields the events it emits, the new input count, and how
control leaves the block. -/
abbrev Block := Env → Nat → List Ev × Nat × Ctl

/-- The shape shared by the script's standard stage blocks
(`if check_output_exists(...): skip [, view prompt] elif not run_command(...):
message [, return] else: [open result]`). -/
structure StepSpec where
  /-- stage description string, used to tag the stage's semantic events and
  passed to `run_command` -/
  label : String
  /-- text of the `fly_message(..., "skip")` call -/
  skipMsg : String
  /-- `expectedOutputs` handed to `check_output_exists` -/
  outs : Files
  /-- the external command line -/
  cmd : String
  /-- message printed when `run_command` returns False -/
  failMsg : String
  /-- `True` for the `Exiting.../return` stages, `False` for the
  `Continuing anyway...` stages -/
  fatal : Bool
  /-- on the skip branch: optional "would you like to view ...?" prompt text
  together with the file opened on a yes answer -/
  skipView : Option (String × String)
  /-- file opened with `open_qzv_file` after a newly successful execution -/
  postOpen : Option String

/-- One standard stage block of `main`, translated from the repeated
`if check_output_exists / elif not run_command / else` pattern. -/
def stdStep (sp : StepSpec) : Block := fun env n =>
  if check_output_exists env.fs sp.outs then
    match sp.skipView with
    | some qf =>
        if yesIn (pyLower (pyStrip (env.inputs n))) then
          ([Ev.check sp.label sp.outs.toList, Ev.info sp.skipMsg "skip",
            Ev.result sp.label StageRes.skipped, Ev.viewPrompt sp.label qf.1]
             ++ open_qzv_file env.fs qf.2, n + 1, Ctl.cont)
        else
          ([Ev.check sp.label sp.outs.toList, Ev.info sp.skipMsg "skip",
            Ev.result sp.label StageRes.skipped, Ev.viewPrompt sp.label qf.1],
           n + 1, Ctl.cont)
    | none =>
        ([Ev.check sp.label sp.outs.toList, Ev.info sp.skipMsg "skip",
          Ev.result sp.label StageRes.skipped], n, Ctl.cont)
  else
    match (run_command env.proc sp.cmd sp.label).2 with
    | none =>
        ([Ev.check sp.label sp.outs.toList, Ev.execute sp.label sp.cmd]
           ++ (run_command env.proc sp.cmd sp.label).1, n, Ctl.exn)
    | some true =>
        match sp.postOpen with
        | some f =>
            ([Ev.check sp.label sp.outs.toList, Ev.execute sp.label sp.cmd]
               ++ (run_command env.proc sp.cmd sp.label).1
               ++ [Ev.result sp.label StageRes.ok] ++ open_qzv_file env.fs f,
             n, Ctl.cont)
        | none =>
            ([Ev.check sp.label sp.outs.toList, Ev.execute sp.label sp.cmd]
               ++ (run_command env.proc sp.cmd sp.label).1
               ++ [Ev.result sp.label StageRes.ok], n, Ctl.cont)
    | some false =>
        if sp.fatal then
          ([Ev.check sp.label sp.outs.toList, Ev.execute sp.label sp.cmd]
             ++ (run_command env.proc sp.cmd sp.label).1
             ++ [Ev.result sp.label StageRes.failed, Ev.info sp.failMsg "error"],
           n, Ctl.ret)
        else
          ([Ev.check sp.label sp.outs.toList, Ev.execute sp.label sp.cmd]
             ++ (run_command env.proc sp.cmd sp.label).1
             ++ [Ev.result sp.label StageRes.failed, Ev.info sp.failMsg "warning"],
           n, Ctl.cont)

/-- A standard stage preceded by its banner / info messages. -/
def blockOf (hdr : List Ev) (sp : StepSpec) : Block := fun env n =>
  let r := stdStep sp env n
  (hdr ++ r.1, r.2.1, r.2.2)

/-! ### The concrete stages (steps 1-20 of `main`) -/

def cmd1 : String :=
  "qiime tools import --type SampleData[PairedEndSequencesWithQuality] --input-path paired-end-demultiplexed --input-format CasavaOneEightSingleLanePerSampleDirFmt --output-path demux-paired-end.qza"

def spec1 : StepSpec :=
  { label := "Sequence import", skipMsg := "Sequence import",
    outs := .str "demux-paired-end.qza", cmd := cmd1,
    failMsg := "Failed to import sequences. Exiting...", fatal := true,
    skipView := none, postOpen := none }

def block1 : Block :=
  blockOf [Ev.info "\n===== STEP 1: IMPORTING SEQUENCES =====" "info"] spec1

def cmd2 : String :=
  "qiime demux summarize --i-data demux-paired-end.qza --o-visualization demux-paired-end-summ.qzv"

def spec2 : StepSpec :=
  { label := "Demux summarization", skipMsg := "Demultiplexed data summarization",
    outs := .str "demux-paired-end-summ.qzv", cmd := cmd2,
    failMsg := "Failed to summarize demultiplexed data. Exiting...", fatal := true,
    skipView := none, postOpen := some "demux-paired-end-summ.qzv" }

/-- Step 2 plus the quality-plot review prompt that follows it (reached on
both the skip and the success path, but not after a fatal failure). -/
def block2 : Block := fun env n =>
  match blockOf [Ev.info "\n===== STEP 2: SUMMARIZING DEMULTIPLEXED DATA =====" "info"] spec2 env n with
  | (es, n', Ctl.cont) =>
      (es ++ [Ev.info "Please examine the sequence quality plots to determine appropriate trimming parameters" "input",
              Ev.waitPrompt "Press Enter to continue once you have reviewed the quality plots..."],
       n' + 1, Ctl.cont)
  | r => r

def defaultForwardPrimer : String := "CCTACGGGNGGCWGCAG"
def defaultReversePrimer : String := "GACTACHVGGGTATCTAATCC"

def cmd3 (forward_primer reverse_primer : String) : String :=
  "qiime cutadapt trim-paired --i-demultiplexed-sequences demux-paired-end.qza --p-front-f "
    ++ forward_primer ++ " --p-front-r " ++ reverse_primer
    ++ " --o-trimmed-sequences trim-seqs.qza"

def spec3 (forward_primer reverse_primer : String) : StepSpec :=
  { label := "Adapter trimming", skipMsg := "Adapter trimming",
    outs := .str "trim-seqs.qza", cmd := cmd3 forward_primer reverse_primer,
    failMsg := "Failed to trim adapters. Exiting...", fatal := true,
    skipView := none, postOpen := none }

/-- Step 3: the custom-primer prompt is issued (and answered) before the
output-existence check. -/
def block3 : Block := fun env n =>
  let hdr := [Ev.info "\n===== STEP 3: TRIMMING ADAPTERS WITH CUTADAPT =====" "info",
              Ev.info "Default primers are:" "info",
              Ev.info ("Forward (V3-V4 region): " ++ defaultForwardPrimer) "info",
              Ev.info ("Reverse (V3-V4 region): " ++ defaultReversePrimer) "info",
              Ev.paramPrompt "Adapter trimming" "Do you want to use custom primers? (yes/no): "]
  let use_custom_primers := pyLower (pyStrip (env.inputs n))
  if yesEq use_custom_primers then
    let forward_primer := pyStrip (env.inputs (n + 1))
    let reverse_primer := pyStrip (env.inputs (n + 2))
    let hdr := hdr ++ [Ev.paramPrompt "Adapter trimming" "Enter your forward primer sequence: ",
                       Ev.paramPrompt "Adapter trimming" "Enter your reverse primer sequence: ",
                       Ev.info ("Using custom primers - Forward: " ++ forward_primer ++ ", Reverse: " ++ reverse_primer) "info"]
    let r := stdStep (spec3 forward_primer reverse_primer) env (n + 3)
    (hdr ++ r.1, r.2.1, r.2.2)
  else
    let hdr := hdr ++ [Ev.info "Using default V3-V4 region primers" "info"]
    let r := stdStep (spec3 defaultForwardPrimer defaultReversePrimer) env (n + 1)
    (hdr ++ r.1, r.2.1, r.2.2)

def cmd4 (trim_left_f trim_left_r trunc_len_f trunc_len_r : String) : String :=
  "qiime dada2 denoise-paired --i-demultiplexed-seqs trim-seqs.qza --p-trim-left-f "
    ++ trim_left_f ++ " --p-trim-left-r " ++ trim_left_r
    ++ " --p-trunc-len-f " ++ trunc_len_f ++ " --p-trunc-len-r " ++ trunc_len_r
    ++ " --o-table dada-table.qza --o-representative-sequences dada-rep-seqs.qza --o-denoising-stats dada-denoising-stats.qza"

def dadaOutputs : List String :=
  ["dada-table.qza", "dada-rep-seqs.qza", "dada-denoising-stats.qza"]

def spec4 (trim_left_f trim_left_r trunc_len_f trunc_len_r : String) : StepSpec :=
  { label := "DADA2 denoising", skipMsg := "DADA2 denoising",
    outs := .list dadaOutputs,
    cmd := cmd4 trim_left_f trim_left_r trunc_len_f trunc_len_r,
    failMsg := "Failed to denoise sequences. Exiting...", fatal := true,
    skipView := none, postOpen := none }

/-- Step 4: the truncation-parameter prompt is issued (and answered) before
the output-existence check. -/
def block4 : Block := fun env n =>
  let hdr := [Ev.info "\n===== STEP 4: DADA2 DENOISING =====" "info",
              Ev.info "Default DADA2 parameters are:" "info",
              Ev.info "Trim left (forward): 0" "info",
              Ev.info "Trim left (reverse): 0" "info",
              Ev.info "Truncation length (forward): 250" "info",
              Ev.info "Truncation length (reverse): 250" "info",
              Ev.info "These values determine how much of each read to keep. Adjust based on quality plots." "info",
              Ev.paramPrompt "DADA2 denoising" "Do you want to customize DADA2 truncation parameters? (yes/no): "]
  let use_custom_trunc := pyLower (pyStrip (env.inputs n))
  if yesEq use_custom_trunc then
    let trim_left_f := pyStrip (env.inputs (n + 1))
    let trim_left_r := pyStrip (env.inputs (n + 2))
    let trunc_len_f := pyStrip (env.inputs (n + 3))
    let trunc_len_r := pyStrip (env.inputs (n + 4))
    let hdr := hdr ++ [Ev.paramPrompt "DADA2 denoising" "Enter trim-left-f value (bases to remove from start of forward reads): ",
                       Ev.paramPrompt "DADA2 denoising" "Enter trim-left-r value (bases to remove from start of reverse reads): ",
                       Ev.paramPrompt "DADA2 denoising" "Enter trunc-len-f value (length to truncate forward reads): ",
                       Ev.paramPrompt "DADA2 denoising" "Enter trunc-len-r value (length to truncate reverse reads): ",
                       Ev.info "Using custom truncation parameters" "info",
                       Ev.info "This step may take a while... Time to stretch your wings!" "info"]
    let r := stdStep (spec4 trim_left_f trim_left_r trunc_len_f trunc_len_r) env (n + 5)
    (hdr ++ r.1, r.2.1, r.2.2)
  else
    let hdr := hdr ++ [Ev.info "Using default truncation parameters" "info",
                       Ev.info "This step may take a while... Time to stretch your wings!" "info"]
    let r := stdStep (spec4 "0" "0" "250" "250") env (n + 1)
    (hdr ++ r.1, r.2.1, r.2.2)

def cmd5 : String :=
  "qiime metadata tabulate --m-input-file dada-denoising-stats.qza --o-visualization dada-denoising-stats-summ.qzv"

def spec5 : StepSpec :=
  { label := "Denoising stats tabulation", skipMsg := "Denoising stats tabulation",
    outs := .str "dada-denoising-stats-summ.qzv", cmd := cmd5,
    failMsg := "Failed to tabulate denoising stats. Continuing anyway...", fatal := false,
    skipView := some ("Would you like to view the denoising stats? (yes/no): ", "dada-denoising-stats-summ.qzv"),
    postOpen := some "dada-denoising-stats-summ.qzv" }

def block5 : Block :=
  blockOf [Ev.info "\n===== STEP 5: VIEWING DENOISING STATISTICS =====" "info"] spec5

def cmd6 : String :=
  "qiime feature-table tabulate-seqs --i-data dada-rep-seqs.qza --o-visualization dada-rep-seqs-summ.qzv"

def spec6 : StepSpec :=
  { label := "Representative sequences tabulation", skipMsg := "Representative sequences tabulation",
    outs := .str "dada-rep-seqs-summ.qzv", cmd := cmd6,
    failMsg := "Failed to tabulate representative sequences. Continuing anyway...", fatal := false,
    skipView := some ("Would you like to view the representative sequences? (yes/no): ", "dada-rep-seqs-summ.qzv"),
    postOpen := some "dada-rep-seqs-summ.qzv" }

def block6 : Block :=
  blockOf [Ev.info "\n===== STEP 6: TABULATING REPRESENTATIVE SEQUENCES =====" "info"] spec6

def cmd7 : String :=
  "qiime feature-table summarize --i-table dada-table.qza --o-visualization dada-table-summ.qzv --m-sample-metadata-file metadata.tsv"

def spec7 : StepSpec :=
  { label := "Feature table summarization", skipMsg := "Feature table summarization",
    outs := .str "dada-table-summ.qzv", cmd := cmd7,
    failMsg := "Failed to summarize feature table. Continuing anyway...", fatal := false,
    skipView := some ("Would you like to view the feature table summary? (yes/no): ", "dada-table-summ.qzv"),
    postOpen := some "dada-table-summ.qzv" }

def block7 : Block :=
  blockOf [Ev.info "\n===== STEP 7: SUMMARIZING FEATURE TABLE =====" "info"] spec7

def cmd8 : String :=
  "qiime alignment mafft --i-sequences dada-rep-seqs.qza --o-alignment dada-rep-seqs-alligned.qza"

def spec8 : StepSpec :=
  { label := "MAFFT alignment", skipMsg := "MAFFT alignment",
    outs := .str "dada-rep-seqs-alligned.qza", cmd := cmd8,
    failMsg := "Failed to align sequences. Exiting...", fatal := true,
    skipView := none, postOpen := none }

def block8 : Block :=
  blockOf [Ev.info "\n===== STEP 8: ALIGNING SEQUENCES WITH MAFFT =====" "info"] spec8

def cmd9 : String :=
  "qiime alignment mask --i-alignment dada-rep-seqs-alligned.qza --o-masked-alignment dada-rep-seqs-alligned-masked.qza"

def spec9 : StepSpec :=
  { label := "Alignment masking", skipMsg := "Alignment masking",
    outs := .str "dada-rep-seqs-alligned-masked.qza", cmd := cmd9,
    failMsg := "Failed to mask alignment. Exiting...", fatal := true,
    skipView := none, postOpen := none }

def block9 : Block :=
  blockOf [Ev.info "\n===== STEP 9: MASKING ALIGNMENT =====" "info"] spec9

def cmd10 : String :=
  "qiime phylogeny fasttree --i-alignment dada-rep-seqs-alligned-masked.qza --o-tree dada-unrooted-tree.qza"

def spec10 : StepSpec :=
  { label := "FastTree phylogeny construction", skipMsg := "FastTree phylogeny construction",
    outs := .str "dada-unrooted-tree.qza", cmd := cmd10,
    failMsg := "Failed to build phylogenetic tree. Exiting...", fatal := true,
    skipView := none, postOpen := none }

def block10 : Block :=
  blockOf [Ev.info "\n===== STEP 10: BUILDING PHYLOGENETIC TREE WITH FASTTREE =====" "info"] spec10

def cmd11 : String :=
  "qiime phylogeny midpoint-root --i-tree dada-unrooted-tree.qza --o-rooted-tree dada-rooted-tree.qza"

def spec11 : StepSpec :=
  { label := "Tree rooting", skipMsg := "Tree rooting",
    outs := .str "dada-rooted-tree.qza", cmd := cmd11,
    failMsg := "Failed to root the tree. Exiting...", fatal := true,
    skipView := none, postOpen := none }

def block11 : Block :=
  blockOf [Ev.info "\n===== STEP 11: ROOTING THE PHYLOGENETIC TREE =====" "info"] spec11

def cmd12 (max_depth : String) : String :=
  "qiime diversity alpha-rarefaction --i-table dada-table.qza --i-phylogeny dada-rooted-tree.qza --p-max-depth "
    ++ max_depth ++ " --m-metadata-file metadata.tsv --o-visualization alpha-rarefaction.qzv"

/-- The rarefaction-curve review messages and prompt that follow step 12 on
both its skip and its success path. -/
def afterRarefactionEvents : List Ev :=
  [Ev.info "Please examine the rarefaction curves to determine an appropriate sampling depth" "input",
   Ev.info "Look for the plateau in the curves and choose a depth that retains most samples" "info",
   Ev.waitPrompt "Press Enter to continue once you have reviewed the rarefaction curves..."]

/-- Step 12 (alpha rarefaction): prompts for a maximum depth on the skip
path as well as on the execution path; on the execution path the depth is
interpolated into the command. -/
def block12 : Block := fun env n =>
  let hdr := [Ev.info "\n===== STEP 12: ALPHA RAREFACTION ANALYSIS =====" "info",
              Ev.check "Alpha rarefaction analysis" ["alpha-rarefaction.qzv"]]
  if check_output_exists env.fs (.str "alpha-rarefaction.qzv") then
    let es := hdr ++ [Ev.info "Alpha rarefaction analysis" "skip",
                      Ev.result "Alpha rarefaction analysis" StageRes.skipped,
                      Ev.viewPrompt "Alpha rarefaction analysis" "Would you like to view the existing alpha rarefaction plot? (yes/no): "]
    let es := if yesIn (pyLower (pyStrip (env.inputs n)))
              then es ++ open_qzv_file env.fs "alpha-rarefaction.qzv" else es
    let es := es ++ [Ev.paramPrompt "Alpha rarefaction analysis" "Enter the maximum rarefaction depth you determined from the plot: "]
    (es ++ afterRarefactionEvents, n + 3, Ctl.cont)
  else
    let es := hdr ++ [Ev.info "We need to determine a rarefaction depth for diversity analyses" "input",
                      Ev.info "Lets generate a rarefaction curve to help with this decision" "info",
                      Ev.paramPrompt "Alpha rarefaction analysis" "Enter maximum rarefaction depth (suggested: check dada-table-summ.qzv for guidance): "]
    let max_depth := env.inputs n
    let es := es ++ [Ev.execute "Alpha rarefaction analysis" (cmd12 max_depth)]
    let rc := run_command env.proc (cmd12 max_depth) "Alpha rarefaction analysis"
    let es := es ++ rc.1
    match rc.2 with
    | none => (es, n + 1, Ctl.exn)
    | some false =>
        (es ++ [Ev.result "Alpha rarefaction analysis" StageRes.failed,
                Ev.info "Failed to perform alpha rarefaction. Exiting..." "error"],
         n + 1, Ctl.ret)
    | some true =>
        (es ++ [Ev.result "Alpha rarefaction analysis" StageRes.ok]
            ++ open_qzv_file env.fs "alpha-rarefaction.qzv" ++ afterRarefactionEvents,
         n + 2, Ctl.cont)

def cmd13 : String :=
  "qiime feature-classifier classify-sklearn --i-classifier classifier.qza --i-reads dada-rep-seqs.qza --o-classification taxonomy.qza"

def spec13 : StepSpec :=
  { label := "Taxonomic classification", skipMsg := "Taxonomic classification",
    outs := .str "taxonomy.qza", cmd := cmd13,
    failMsg := "Failed to classify taxonomy. Exiting...", fatal := true,
    skipView := none, postOpen := none }

def block13 : Block :=
  blockOf [Ev.info "\n===== STEP 13: TAXONOMIC CLASSIFICATION =====" "info",
           Ev.info "This step may take a while... Flies are patient creatures!" "info"] spec13

def cmd14 : String :=
  "qiime metadata tabulate --m-input-file taxonomy.qza --o-visualization taxonomy.qzv"

def spec14 : StepSpec :=
  { label := "Taxonomy visualization", skipMsg := "Taxonomy visualization",
    outs := .str "taxonomy.qzv", cmd := cmd14,
    failMsg := "Failed to visualize taxonomy. Continuing anyway...", fatal := false,
    skipView := some ("Would you like to view the taxonomy visualization? (yes/no): ", "taxonomy.qzv"),
    postOpen := some "taxonomy.qzv" }

def block14 : Block :=
  blockOf [Ev.info "\n===== STEP 14: VISUALIZING TAXONOMY =====" "info"] spec14

def cmd15 : String :=
  "qiime feature-table filter-features --i-table dada-table.qza --p-min-samples 2 --o-filtered-table dada-filtered-table.qza"

def spec15 : StepSpec :=
  { label := "Feature table filtering", skipMsg := "Feature table filtering",
    outs := .str "dada-filtered-table.qza", cmd := cmd15,
    failMsg := "Failed to filter feature table. Exiting...", fatal := true,
    skipView := none, postOpen := none }

def block15 : Block :=
  blockOf [Ev.info "\n===== STEP 15: FILTERING FEATURE TABLE =====" "info"] spec15

def cmd16 : String :=
  "qiime taxa filter-table --i-table dada-filtered-table.qza --i-taxonomy taxonomy.qza --p-exclude mitochondria,chloroplast --o-filtered-table dada-filtered-nmnc-table.qza"

def spec16 : StepSpec :=
  { label := "Mitochondria and chloroplast filtering", skipMsg := "Mitochondria and chloroplast filtering",
    outs := .str "dada-filtered-nmnc-table.qza", cmd := cmd16,
    failMsg := "Failed to filter mitochondria and chloroplast. Exiting...", fatal := true,
    skipView := none, postOpen := none }

def block16 : Block :=
  blockOf [Ev.info "\n===== STEP 16: FILTERING MITOCHONDRIA AND CHLOROPLAST =====" "info"] spec16

def cmd17 : String :=
  "qiime taxa collapse --i-table dada-filtered-nmnc-table.qza --i-taxonomy taxonomy.qza --p-level 6 --o-collapsed-table dada-filtered-nmnc-table-l6.qza"

def spec17 : StepSpec :=
  { label := "Taxonomy collapsing", skipMsg := "Taxonomy collapsing",
    outs := .str "dada-filtered-nmnc-table-l6.qza", cmd := cmd17,
    failMsg := "Failed to collapse taxonomy. Exiting...", fatal := true,
    skipView := none, postOpen := none }

def block17 : Block :=
  blockOf [Ev.info "\n===== STEP 17: COLLAPSING TAXONOMY TO GENUS LEVEL =====" "info"] spec17

def cmd18 : String :=
  "qiime feature-table summarize --i-table dada-filtered-nmnc-table-l6.qza --o-visualization dada-filtered-nmnc-table-l6.qzv --m-sample-metadata-file metadata.tsv"

def spec18 : StepSpec :=
  { label := "Collapsed table summarization", skipMsg := "Collapsed table summarization",
    outs := .str "dada-filtered-nmnc-table-l6.qzv", cmd := cmd18,
    failMsg := "Failed to summarize collapsed table. Continuing anyway...", fatal := false,
    skipView := some ("Would you like to view the collapsed table visualization? (yes/no): ", "dada-filtered-nmnc-table-l6.qzv"),
    postOpen := some "dada-filtered-nmnc-table-l6.qzv" }

def block18 : Block :=
  blockOf [Ev.info "\n===== STEP 18: SUMMARIZING COLLAPSED TABLE =====" "info"] spec18

def cmd19 : String :=
  "qiime taxa barplot --i-table dada-filtered-nmnc-table.qza --i-taxonomy taxonomy.qza --m-metadata-file metadata.tsv --o-visualization taxa-bar-plots.qzv"

def spec19 : StepSpec :=
  { label := "Taxonomy barplot generation", skipMsg := "Taxonomy barplot generation",
    outs := .str "taxa-bar-plots.qzv", cmd := cmd19,
    failMsg := "Failed to generate taxonomy barplots. Continuing anyway...", fatal := false,
    skipView := some ("Would you like to view the taxonomy barplots? (yes/no): ", "taxa-bar-plots.qzv"),
    postOpen := some "taxa-bar-plots.qzv" }

def block19 : Block :=
  blockOf [Ev.info "\n===== STEP 19: GENERATING TAXONOMY BARPLOTS =====" "info"] spec19

def metricsOutputs : List String :=
  ["metrics/faith_pd_vector.qza", "metrics/observed_features_vector.qza",
   "metrics/shannon_vector.qza", "metrics/evenness_vector.qza",
   "metrics/unweighted_unifrac_distance_matrix.qza", "metrics/weighted_unifrac_distance_matrix.qza",
   "metrics/jaccard_distance_matrix.qza", "metrics/bray_curtis_distance_matrix.qza"]

def cmd20 (sampling_depth : String) : String :=
  "qiime diversity core-metrics-phylogenetic --i-phylogeny dada-rooted-tree.qza --i-table dada-filtered-nmnc-table.qza --p-sampling-depth "
    ++ sampling_depth ++ " --m-metadata-file metadata.tsv --output-dir metrics"

/-- Step 20 (core metrics): prompts for a sampling depth on the skip path as
well as on the execution path. -/
def block20 : Block := fun env n =>
  let hdr := [Ev.info "\n===== STEP 20: CORE METRICS PHYLOGENETIC ANALYSIS =====" "info",
              Ev.check "Core metrics phylogenetic analysis" metricsOutputs]
  if check_output_exists env.fs (.list metricsOutputs) then
    (hdr ++ [Ev.info "Core metrics phylogenetic analysis" "skip",
             Ev.result "Core metrics phylogenetic analysis" StageRes.skipped,
             Ev.paramPrompt "Core metrics phylogenetic analysis" "Enter the sampling depth you previously used for diversity analyses: "],
     n + 1, Ctl.cont)
  else
    let es := hdr ++ [Ev.info "Based on your examination of the alpha rarefaction curves, we need to set a sampling depth" "input",
                      Ev.paramPrompt "Core metrics phylogenetic analysis" "Enter sampling depth for diversity analyses: "]
    let sampling_depth := env.inputs n
    let es := es ++ [Ev.execute "Core metrics phylogenetic analysis" (cmd20 sampling_depth)]
    let rc := run_command env.proc (cmd20 sampling_depth) "Core metrics phylogenetic analysis"
    let es := es ++ rc.1
    match rc.2 with
    | none => (es, n + 1, Ctl.exn)
    | some false =>
        (es ++ [Ev.result "Core metrics phylogenetic analysis" StageRes.failed,
                Ev.info "Failed to perform core metrics analysis. Exiting..." "error"],
         n + 1, Ctl.ret)
    | some true =>
        (es ++ [Ev.result "Core metrics phylogenetic analysis" StageRes.ok], n + 1, Ctl.cont)

/-! ### Step 21: the export phase -/

def cmdExportFeatureTable : String :=
  "qiime tools export --input-path dada-filtered-nmnc-table.qza --output-path exports/feature-table"

def specExportFeatureTable : StepSpec :=
  { label := "Feature table export", skipMsg := "Feature table export",
    outs := .str "exports/feature-table/feature-table.biom", cmd := cmdExportFeatureTable,
    failMsg := "Failed to export feature table. Continuing anyway...", fatal := false,
    skipView := none, postOpen := none }

/-- Export-phase opener: step banner, the `exports`-directory message (the
`os.makedirs` call itself has no observable event; it cannot affect any
path later queried), then the feature-table export stage.  -/
def blockExportFeatureTable : Block :=
  blockOf [Ev.info "\n===== STEP 21: EXPORTING ARTIFACTS TO USABLE FORMATS =====" "info",
           Ev.info "Creating exports directory for exported files..." "info",
           Ev.info "Exporting feature table to biom format..." "info"] specExportFeatureTable

def cmdBiomConvert : String :=
  "biom convert -i exports/feature-table/feature-table.biom -o exports/feature-table/feature-table.tsv --to-tsv"

def specBiomConvert : StepSpec :=
  { label := "Biom to TSV conversion", skipMsg := "Biom to TSV conversion",
    outs := .str "exports/feature-table/feature-table.tsv", cmd := cmdBiomConvert,
    failMsg := "Failed to convert feature table to TSV. Continuing anyway...", fatal := false,
    skipView := none, postOpen := none }

def blockBiomConvert : Block :=
  blockOf [Ev.info "Converting feature table from biom to TSV format..." "info"] specBiomConvert

def cmdExportTaxonomy : String :=
  "qiime tools export --input-path taxonomy.qza --output-path exports/taxonomy"

def specExportTaxonomy : StepSpec :=
  { label := "Taxonomy export", skipMsg := "Taxonomy export",
    outs := .str "exports/taxonomy/taxonomy.tsv", cmd := cmdExportTaxonomy,
    failMsg := "Failed to export taxonomy. Continuing anyway...", fatal := false,
    skipView := none, postOpen := none }

def blockExportTaxonomy : Block :=
  blockOf [Ev.info "Exporting taxonomy assignments..." "info"] specExportTaxonomy

def cmdExportRepSeqs : String :=
  "qiime tools export --input-path dada-rep-seqs.qza --output-path exports/rep-seqs"

def specExportRepSeqs : StepSpec :=
  { label := "Representative sequences export", skipMsg := "Representative sequences export",
    outs := .str "exports/rep-seqs/dna-sequences.fasta", cmd := cmdExportRepSeqs,
    failMsg := "Failed to export representative sequences. Continuing anyway...", fatal := false,
    skipView := none, postOpen := none }

def blockExportRepSeqs : Block :=
  blockOf [Ev.info "Exporting representative sequences..." "info"] specExportRepSeqs

def cmdExportPhylogeny : String :=
  "qiime tools export --input-path dada-rooted-tree.qza --output-path exports/phylogeny"

def specExportPhylogeny : StepSpec :=
  { label := "Phylogenetic tree export", skipMsg := "Phylogenetic tree export",
    outs := .str "exports/phylogeny/tree.nwk", cmd := cmdExportPhylogeny,
    failMsg := "Failed to export phylogenetic tree. Continuing anyway...", fatal := false,
    skipView := none, postOpen := none }

def blockExportPhylogeny : Block :=
  blockOf [Ev.info "Exporting phylogenetic tree..." "info"] specExportPhylogeny

def alphaMetrics : List String := ["observed_features", "shannon", "faith_pd", "evenness"]

def cmdAlphaExport (metric : String) : String :=
  "qiime tools export --input-path metrics/" ++ metric
    ++ "_vector.qza --output-path exports/alpha-diversity/" ++ metric

def specAlphaExport (metric : String) : StepSpec :=
  { label := metric ++ " export", skipMsg := metric ++ " export",
    outs := .str ("exports/alpha-diversity/" ++ metric ++ "/alpha-diversity.tsv"),
    cmd := cmdAlphaExport metric,
    failMsg := "Failed to export " ++ metric ++ ". Continuing anyway...", fatal := false,
    skipView := none, postOpen := none }

/-- One iteration of the alpha-diversity export loop: the stage exists only
when its upstream `metrics/<metric>_vector.qza` artifact exists. -/
def alphaExportItem (metric : String) : Block := fun env n =>
  if env.fs.pathExists ("metrics/" ++ metric ++ "_vector.qza") then
    stdStep (specAlphaExport metric) env n
  else ([], n, Ctl.cont)

def betaMetrics : List String := ["unweighted_unifrac", "weighted_unifrac", "jaccard", "bray_curtis"]

def cmdBetaExport (metric : String) : String :=
  "qiime tools export --input-path metrics/" ++ metric
    ++ "_distance_matrix.qza --output-path exports/beta-diversity/" ++ metric

def specBetaExport (metric : String) : StepSpec :=
  { label := metric ++ " export", skipMsg := metric ++ " export",
    outs := .str ("exports/beta-diversity/" ++ metric ++ "/distance-matrix.tsv"),
    cmd := cmdBetaExport metric,
    failMsg := "Failed to export " ++ metric ++ ". Continuing anyway...", fatal := false,
    skipView := none, postOpen := none }

/-- One iteration of the beta-diversity export loop: the stage exists only
when its upstream `metrics/<metric>_distance_matrix.qza` artifact exists. -/
def betaExportItem (metric : String) : Block := fun env n =>
  if env.fs.pathExists ("metrics/" ++ metric ++ "_distance_matrix.qza") then
    stdStep (specBetaExport metric) env n
  else ([], n, Ctl.cont)

/-- A `for` loop over a fixed list of items, each iteration a block; an
exception inside an iteration propagates out of the loop. -/
def runForEach (f : String → Block) : List String → Block
  | [] => fun _ n => ([], n, Ctl.cont)
  | m :: ms => fun env n =>
      match f m env n with
      | (es, n', Ctl.cont) =>
          let r := runForEach f ms env n'
          (es ++ r.1, r.2.1, r.2.2)
      | r => r

def blockAlphaExports : Block := fun env n =>
  let r := runForEach alphaExportItem alphaMetrics env n
  (Ev.info "Exporting alpha diversity metrics..." "info" :: r.1, r.2.1, r.2.2)

def blockBetaExports : Block := fun env n =>
  let r := runForEach betaExportItem betaMetrics env n
  (Ev.info "Exporting beta diversity distance matrices..." "info" :: r.1, r.2.1, r.2.2)

def cmdExportCollapsed : String :=
  "qiime tools export --input-path dada-filtered-nmnc-table-l6.qza --output-path exports/collapsed-table"

def specExportCollapsed : StepSpec :=
  { label := "Collapsed table export", skipMsg := "Collapsed table export",
    outs := .str "exports/collapsed-table/feature-table.biom", cmd := cmdExportCollapsed,
    failMsg := "Failed to export collapsed table. Continuing anyway...", fatal := false,
    skipView := none, postOpen := none }

def blockExportCollapsed : Block :=
  blockOf [Ev.info "Exporting collapsed taxonomic table..." "info"] specExportCollapsed

def cmdCollapsedConvert : String :=
  "biom convert -i exports/collapsed-table/feature-table.biom -o exports/collapsed-table/feature-table-l6.tsv --to-tsv"

def specCollapsedConvert : StepSpec :=
  { label := "Collapsed biom to TSV conversion", skipMsg := "Collapsed biom to TSV conversion",
    outs := .str "exports/collapsed-table/feature-table-l6.tsv", cmd := cmdCollapsedConvert,
    failMsg := "Failed to convert collapsed table to TSV. Continuing anyway...", fatal := false,
    skipView := none, postOpen := none }

def blockCollapsedConvert : Block :=
  blockOf [Ev.info "Converting collapsed table from biom to TSV format..." "info"] specCollapsedConvert

/-- The closing messages of `main`. -/
def blockFinal : Block := fun _ n =>
  ([Ev.info "All artifacts have been exported to the exports directory!" "success",
    Ev.info "\n===== ANALYSIS COMPLETE =====" "success",
    Ev.info "All QIIME2 analysis steps have been completed successfully!" "success",
    Ev.info "Output files are available in the current directory, metrics folder, and exports folder" "info",
    Ev.info "Thank you for using this QIIME2 Script!" "info"],
   n, Ctl.cont)

/-! ### The run loop -/

/-- Run a sequence of blocks in order, stopping at the first block whose
control flow is not fall-through (a `return` from `main` or an uncaught
exception). -/
def runBlocks : List Block → Block
  | [] => fun _ n => ([], n, Ctl.cont)
  | b :: bs => fun env n =>
      match b env n with
      | (es, n', Ctl.cont) =>
          let r := runBlocks bs env n'
          (es ++ r.1, r.2.1, r.2.2)
      | r => r

/-- The stages of the export phase (step 21), in order. -/
def exportPhase : List Block :=
  [blockExportFeatureTable, blockBiomConvert, blockExportTaxonomy,
   blockExportRepSeqs, blockExportPhylogeny, blockAlphaExports,
   blockBetaExports, blockExportCollapsed, blockCollapsedConvert]

/-- All blocks of `main` after the prerequisite check, in order. -/
def mainBlocks : List Block :=
  [block1, block2, block3, block4, block5, block6, block7, block8, block9,
   block10, block11, block12, block13, block14, block15, block16, block17,
   block18, block19, block20] ++ exportPhase ++ [blockFinal]

/-- `main()`: logo and intro messages (the ASCII logo itself is pure
branding and not modelled), the prerequisite check with its early return,
then the stage sequence. -/
def mainRun : Block := fun env n =>
  let intro := [Ev.info "This script will guide you through a complete QIIME2 analysis workflow" "info",
                Ev.info "Before we begin, lets check if you have all the required files:" "info",
                Ev.info "1. paired-end-demultiplexed folder with FASTQ files" "info",
                Ev.info "2. metadata.tsv file with sample metadata" "info",
                Ev.info "3. classifier.qza for taxonomic classification" "info"]
  let pr := check_prerequisites env.fs
  if pr.2 then
    let r := runBlocks mainBlocks env n
    (intro ++ pr.1 ++ r.1, r.2.1, r.2.2)
  else
    (intro ++ pr.1 ++ [Ev.info "Please add the missing files and run the script again" "error"],
     n, Ctl.ret)


/-! ### Emission locality: each block only tags events with its own stage labels -/

/-- Boolean tag check: `e` is untagged or tagged with a label from `L`. -/
def evOk (L : List String) (e : Ev) : Bool :=
  match e.stageTag with
  | none => true
  | some l => L.contains l

/-- Block `b` only emits events that are untagged or tagged from `L`. -/
def allOk (b : Block) (L : List String) : Prop :=
  ∀ env n, ((b env n).1).all (evOk L) = true

theorem contains_true_iff_mem {L : List String} {l : String} :
    L.contains l = true ↔ l ∈ L := by
  constructor
  · intro h
    rcases List.contains_iff_exists_mem_beq.1 h with ⟨a, ha, hb⟩
    exact (beq_iff_eq.1 hb) ▸ ha
  · intro h
    exact List.contains_iff_exists_mem_beq.2 ⟨l, h, by simp⟩

theorem evOk_mono {L L' : List String} (h : ∀ l, l ∈ L → l ∈ L') (e : Ev)
    (he : evOk L e = true) : evOk L' e = true := by
  unfold evOk at he ⊢
  cases htag : e.stageTag with
  | none => rfl
  | some l =>
      rw [htag] at he
      rw [contains_true_iff_mem] at he ⊢
      exact h l he

theorem all_evOk_mono {L L' : List String} (h : ∀ l, l ∈ L → l ∈ L') {es : List Ev}
    (he : es.all (evOk L) = true) : es.all (evOk L') = true := by
  rw [List.all_eq_true] at he ⊢
  exact fun e hm => evOk_mono h e (he e hm)

theorem allOk_mono {b : Block} {L L' : List String} (h : ∀ l, l ∈ L → l ∈ L')
    (hb : allOk b L) : allOk b L' :=
  fun env n => all_evOk_mono h (hb env n)

theorem run_command_evOk (L : List String) (proc : String → POutcome) (c d : String) :
    ((run_command proc c d).1).all (evOk L) = true := by
  unfold run_command
  split <;> simp [evOk, Ev.stageTag]

theorem open_qzv_evOk (L : List String) (fs : FS) (p : String) :
    (open_qzv_file fs p).all (evOk L) = true := by
  unfold open_qzv_file
  split <;> simp [evOk, Ev.stageTag]

theorem stdStep_evOk (sp : StepSpec) (L : List String) (hL : sp.label ∈ L) :
    allOk (stdStep sp) L := by
  intro env n
  have hc : L.contains sp.label = true := contains_true_iff_mem.2 hL
  unfold stdStep
  split
  · split
    · split <;>
        simp [evOk, Ev.stageTag, open_qzv_evOk, hc, hL]
    · simp [evOk, Ev.stageTag, hc, hL]
  · split
    · simp [evOk, Ev.stageTag, run_command_evOk, hc, hL]
    · split <;>
        simp [evOk, Ev.stageTag, run_command_evOk, open_qzv_evOk, hc, hL]
    · split <;>
        simp [evOk, Ev.stageTag, run_command_evOk, hc, hL]

theorem blockOf_evOk (hdr : List Ev) (sp : StepSpec) (L : List String)
    (hhdr : hdr.all (evOk L) = true) (hL : sp.label ∈ L) :
    allOk (blockOf hdr sp) L := by
  intro env n
  unfold blockOf
  simp only [List.all_append]
  rw [hhdr, stdStep_evOk sp L hL env n]
  rfl

theorem block1_evOk : allOk block1 ["Sequence import"] :=
  blockOf_evOk _ _ _ (by rfl) (by simp [spec1])

theorem block2_evOk : allOk block2 ["Demux summarization"] := by
  intro env n
  have h := blockOf_evOk [Ev.info "\n===== STEP 2: SUMMARIZING DEMULTIPLEXED DATA =====" "info"]
    spec2 ["Demux summarization"] (by rfl) (by simp [spec2]) env n
  unfold block2
  split
  next es n' heq =>
      rw [heq] at h
      simp only [List.all_append, Bool.and_eq_true] at h ⊢
      exact ⟨h, by rfl⟩
  next r heq =>
      exact h

theorem block3_evOk : allOk block3 ["Adapter trimming"] := by
  intro env n
  simp only [block3]
  split
  · exact blockOf_evOk _ (spec3 _ _) _
      (by simp [evOk, Ev.stageTag, List.contains_cons]) (by simp [spec3]) env (n + 3)
  · exact blockOf_evOk _ (spec3 defaultForwardPrimer defaultReversePrimer) _
      (by simp [evOk, Ev.stageTag, List.contains_cons]) (by simp [spec3]) env (n + 1)

theorem block4_evOk : allOk block4 ["DADA2 denoising"] := by
  intro env n
  simp only [block4]
  split
  · exact blockOf_evOk _ (spec4 _ _ _ _) _
      (by simp [evOk, Ev.stageTag, List.contains_cons]) (by simp [spec4]) env (n + 5)
  · exact blockOf_evOk _ (spec4 "0" "0" "250" "250") _
      (by simp [evOk, Ev.stageTag, List.contains_cons]) (by simp [spec4]) env (n + 1)

theorem block5_evOk : allOk block5 ["Denoising stats tabulation"] :=
  blockOf_evOk _ _ _ (by rfl) (by simp [spec5])

theorem block6_evOk : allOk block6 ["Representative sequences tabulation"] :=
  blockOf_evOk _ _ _ (by rfl) (by simp [spec6])

theorem block7_evOk : allOk block7 ["Feature table summarization"] :=
  blockOf_evOk _ _ _ (by rfl) (by simp [spec7])

theorem block8_evOk : allOk block8 ["MAFFT alignment"] :=
  blockOf_evOk _ _ _ (by rfl) (by simp [spec8])

theorem block9_evOk : allOk block9 ["Alignment masking"] :=
  blockOf_evOk _ _ _ (by rfl) (by simp [spec9])

theorem block10_evOk : allOk block10 ["FastTree phylogeny construction"] :=
  blockOf_evOk _ _ _ (by rfl) (by simp [spec10])

theorem block11_evOk : allOk block11 ["Tree rooting"] :=
  blockOf_evOk _ _ _ (by rfl) (by simp [spec11])

theorem block12_evOk : allOk block12 ["Alpha rarefaction analysis"] := by
  intro env n
  simp only [block12]
  split
  · split <;>
      simp [evOk, Ev.stageTag, List.contains_cons, open_qzv_evOk,
            afterRarefactionEvents]
  · split <;>
      simp [evOk, Ev.stageTag, List.contains_cons, open_qzv_evOk,
            run_command_evOk, afterRarefactionEvents]

theorem block13_evOk : allOk block13 ["Taxonomic classification"] :=
  blockOf_evOk _ _ _ (by rfl) (by simp [spec13])

theorem block14_evOk : allOk block14 ["Taxonomy visualization"] :=
  blockOf_evOk _ _ _ (by rfl) (by simp [spec14])

theorem block15_evOk : allOk block15 ["Feature table filtering"] :=
  blockOf_evOk _ _ _ (by rfl) (by simp [spec15])

theorem block16_evOk : allOk block16 ["Mitochondria and chloroplast filtering"] :=
  blockOf_evOk _ _ _ (by rfl) (by simp [spec16])

theorem block17_evOk : allOk block17 ["Taxonomy collapsing"] :=
  blockOf_evOk _ _ _ (by rfl) (by simp [spec17])

theorem block18_evOk : allOk block18 ["Collapsed table summarization"] :=
  blockOf_evOk _ _ _ (by rfl) (by simp [spec18])

theorem block19_evOk : allOk block19 ["Taxonomy barplot generation"] :=
  blockOf_evOk _ _ _ (by rfl) (by simp [spec19])

theorem block20_evOk : allOk block20 ["Core metrics phylogenetic analysis"] := by
  intro env n
  simp only [block20]
  split
  · simp [evOk, Ev.stageTag, List.contains_cons]
  · split <;>
      simp [evOk, Ev.stageTag, List.contains_cons, run_command_evOk]

theorem blockExportFeatureTable_evOk : allOk blockExportFeatureTable ["Feature table export"] :=
  blockOf_evOk _ _ _ (by rfl) (by simp [specExportFeatureTable])

theorem blockBiomConvert_evOk : allOk blockBiomConvert ["Biom to TSV conversion"] :=
  blockOf_evOk _ _ _ (by rfl) (by simp [specBiomConvert])

theorem blockExportTaxonomy_evOk : allOk blockExportTaxonomy ["Taxonomy export"] :=
  blockOf_evOk _ _ _ (by rfl) (by simp [specExportTaxonomy])

theorem blockExportRepSeqs_evOk : allOk blockExportRepSeqs ["Representative sequences export"] :=
  blockOf_evOk _ _ _ (by rfl) (by simp [specExportRepSeqs])

theorem blockExportPhylogeny_evOk : allOk blockExportPhylogeny ["Phylogenetic tree export"] :=
  blockOf_evOk _ _ _ (by rfl) (by simp [specExportPhylogeny])

/-- Labels of the alpha-diversity export loop's stages. -/
def alphaLabels : List String :=
  ["observed_features export", "shannon export", "faith_pd export", "evenness export"]

/-- Labels of the beta-diversity export loop's stages. -/
def betaLabels : List String :=
  ["unweighted_unifrac export", "weighted_unifrac export", "jaccard export", "bray_curtis export"]

theorem runForEach_evOk (f : String → Block) (L : List String) (ms : List String)
    (hf : ∀ m ∈ ms, ∀ env n, ((f m env n).1).all (evOk L) = true) :
    ∀ env n, ((runForEach f ms env n).1).all (evOk L) = true := by
  induction ms with
  | nil => intro env n; rfl
  | cons m ms ih =>
      intro env n
      have h := hf m (by simp) env n
      unfold runForEach
      split
      next es n' heq =>
          rw [heq] at h
          simp only [List.all_append, Bool.and_eq_true] at h ⊢
          exact ⟨h, by simpa using ih (fun m hm => hf m (by simp [hm])) env n'⟩
      next r heq =>
          exact h

theorem alphaExportItem_evOk : ∀ m ∈ alphaMetrics, ∀ env n,
    ((alphaExportItem m env n).1).all (evOk alphaLabels) = true := by
  intro m hm
  fin_cases hm <;>
    · intro env n
      unfold alphaExportItem
      split
      · exact stdStep_evOk _ alphaLabels (by simp [specAlphaExport, alphaLabels]) env n
      · rfl

theorem betaExportItem_evOk : ∀ m ∈ betaMetrics, ∀ env n,
    ((betaExportItem m env n).1).all (evOk betaLabels) = true := by
  intro m hm
  fin_cases hm <;>
    · intro env n
      unfold betaExportItem
      split
      · exact stdStep_evOk _ betaLabels (by simp [specBetaExport, betaLabels]) env n
      · rfl

theorem blockAlphaExports_evOk : allOk blockAlphaExports alphaLabels := by
  intro env n
  unfold blockAlphaExports
  simp only [List.all_cons, Bool.and_eq_true]
  exact ⟨by rfl, runForEach_evOk _ _ _ alphaExportItem_evOk env n⟩

theorem blockBetaExports_evOk : allOk blockBetaExports betaLabels := by
  intro env n
  unfold blockBetaExports
  simp only [List.all_cons, Bool.and_eq_true]
  exact ⟨by rfl, runForEach_evOk _ _ _ betaExportItem_evOk env n⟩

theorem blockExportCollapsed_evOk : allOk blockExportCollapsed ["Collapsed table export"] :=
  blockOf_evOk _ _ _ (by rfl) (by simp [specExportCollapsed])

theorem blockCollapsedConvert_evOk : allOk blockCollapsedConvert ["Collapsed biom to TSV conversion"] :=
  blockOf_evOk _ _ _ (by rfl) (by simp [specCollapsedConvert])

theorem blockFinal_evOk : allOk blockFinal [] := by
  intro env n
  rfl

/-- The stage labels of the blocks of `main`, positionally matching
`mainBlocks`. -/
def mainLabels : List (List String) :=
  [["Sequence import"], ["Demux summarization"], ["Adapter trimming"], ["DADA2 denoising"],
   ["Denoising stats tabulation"], ["Representative sequences tabulation"],
   ["Feature table summarization"], ["MAFFT alignment"], ["Alignment masking"],
   ["FastTree phylogeny construction"], ["Tree rooting"], ["Alpha rarefaction analysis"],
   ["Taxonomic classification"], ["Taxonomy visualization"], ["Feature table filtering"],
   ["Mitochondria and chloroplast filtering"], ["Taxonomy collapsing"],
   ["Collapsed table summarization"], ["Taxonomy barplot generation"],
   ["Core metrics phylogenetic analysis"],
   ["Feature table export"], ["Biom to TSV conversion"], ["Taxonomy export"],
   ["Representative sequences export"], ["Phylogenetic tree export"],
   alphaLabels, betaLabels,
   ["Collapsed table export"], ["Collapsed biom to TSV conversion"], []]

theorem mainBlocks_allOk : List.Forall₂ allOk mainBlocks mainLabels := by
  refine .cons block1_evOk ?_
  refine .cons block2_evOk ?_
  refine .cons block3_evOk ?_
  refine .cons block4_evOk ?_
  refine .cons block5_evOk ?_
  refine .cons block6_evOk ?_
  refine .cons block7_evOk ?_
  refine .cons block8_evOk ?_
  refine .cons block9_evOk ?_
  refine .cons block10_evOk ?_
  refine .cons block11_evOk ?_
  refine .cons block12_evOk ?_
  refine .cons block13_evOk ?_
  refine .cons block14_evOk ?_
  refine .cons block15_evOk ?_
  refine .cons block16_evOk ?_
  refine .cons block17_evOk ?_
  refine .cons block18_evOk ?_
  refine .cons block19_evOk ?_
  refine .cons block20_evOk ?_
  refine .cons blockExportFeatureTable_evOk ?_
  refine .cons blockBiomConvert_evOk ?_
  refine .cons blockExportTaxonomy_evOk ?_
  refine .cons blockExportRepSeqs_evOk ?_
  refine .cons blockExportPhylogeny_evOk ?_
  refine .cons blockAlphaExports_evOk ?_
  refine .cons blockBetaExports_evOk ?_
  refine .cons blockExportCollapsed_evOk ?_
  refine .cons blockCollapsedConvert_evOk ?_
  refine .cons blockFinal_evOk ?_
  exact .nil

/-! ### Run-loop lemmas -/

theorem runBlocks_cons_cont {b : Block} {bs : List Block} {env : Env} {n : Nat}
    {es : List Ev} {n' : Nat} (hb : b env n = (es, n', Ctl.cont)) :
    runBlocks (b :: bs) env n =
      (es ++ (runBlocks bs env n').1,
       (runBlocks bs env n').2.1, (runBlocks bs env n').2.2) := by
  conv_lhs => unfold runBlocks
  rw [hb]

theorem runBlocks_cons_stop {b : Block} {bs : List Block} {env : Env} {n : Nat}
    {es : List Ev} {n' : Nat} {fl : Ctl} (hfl : fl ≠ Ctl.cont)
    (hb : b env n = (es, n', fl)) :
    runBlocks (b :: bs) env n = (es, n', fl) := by
  conv_lhs => unfold runBlocks
  rw [hb]
  cases fl with
  | cont => exact absurd rfl hfl
  | ret => rfl
  | exn => rfl

theorem runBlocks_allOk {bs : List Block} {Ls : List (List String)}
    (h : List.Forall₂ allOk bs Ls) : allOk (runBlocks bs) Ls.flatten := by
  induction h with
  | nil => intro env n; rfl
  | @cons b L bs Ls hb htail ih =>
      intro env n
      have hb' : allOk b ((L :: Ls).flatten) :=
        allOk_mono (by intro l hl; rw [List.flatten_cons]; exact List.mem_append_left _ hl) hb
      have ih' : allOk (runBlocks bs) ((L :: Ls).flatten) :=
        allOk_mono (by intro l hl; rw [List.flatten_cons]; exact List.mem_append_right _ hl) ih
      have h1 := hb' env n
      rcases hb2 : b env n with ⟨es₀, n₀, c₀⟩
      rw [hb2] at h1
      cases c₀ with
      | cont =>
          rw [runBlocks_cons_cont hb2]
          simp only [List.all_append, Bool.and_eq_true]
          exact ⟨h1, ih' env n₀⟩
      | ret => rw [runBlocks_cons_stop (by simp) hb2]; exact h1
      | exn => rw [runBlocks_cons_stop (by simp) hb2]; exact h1

theorem runBlocks_stop (bs : List Block) (i : Nat) (hi : i < bs.length) :
    ∀ (env : Env) (n : Nat) (es es' : List Ev) (n₁ n' : Nat) (fl : Ctl),
      fl ≠ Ctl.cont →
      runBlocks (bs.take i) env n = (es, n₁, Ctl.cont) →
      bs.get ⟨i, hi⟩ env n₁ = (es', n', fl) →
      runBlocks bs env n = (es ++ es', n', fl) := by
  induction i generalizing bs with
  | zero =>
      intro env n es es' n₁ n' fl hfl hpre hblk
      match bs, hi with
      | b :: tl, _ =>
        simp only [List.take_zero, runBlocks, Prod.mk.injEq] at hpre
        obtain ⟨h1, h2, -⟩ := hpre
        subst h1
        subst h2
        have hblk2 : b env n = (es', n', fl) := hblk
        rw [runBlocks_cons_stop hfl hblk2]
        simp
  | succ i ih =>
      intro env n es es' n₁ n' fl hfl hpre hblk
      match bs, hi with
      | b :: tl, hi =>
        simp only [List.take_succ_cons] at hpre
        rcases hb : b env n with ⟨es₀, n₀, c₀⟩
        cases c₀ with
        | cont =>
            rw [runBlocks_cons_cont hb] at hpre
            rcases hr : runBlocks (List.take i tl) env n₀ with ⟨es₁, n₂, c₁⟩
            rw [hr] at hpre
            simp only [Prod.mk.injEq] at hpre
            obtain ⟨he, hn, hc⟩ := hpre
            subst he
            rw [hn, hc] at hr
            have hblk' : tl.get ⟨i, by simpa using hi⟩ env n₁ = (es', n', fl) := hblk
            have hres := ih tl (by simpa using hi) env n₀ es₁ es' n₁ n' fl hfl hr hblk'
            rw [runBlocks_cons_cont hb, hres]
            simp [List.append_assoc]
        | ret =>
            rw [runBlocks_cons_stop (by simp) hb] at hpre
            simp at hpre
        | exn =>
            rw [runBlocks_cons_stop (by simp) hb] at hpre
            simp at hpre

theorem runBlocks_split (bs : List Block) (i : Nat) :
    ∀ (env : Env) (n : Nat) (es : List Ev) (n₁ : Nat),
      runBlocks (bs.take i) env n = (es, n₁, Ctl.cont) →
      runBlocks bs env n =
        (es ++ (runBlocks (bs.drop i) env n₁).1,
         (runBlocks (bs.drop i) env n₁).2.1,
         (runBlocks (bs.drop i) env n₁).2.2) := by
  induction i generalizing bs with
  | zero =>
      intro env n es n₁ h
      simp only [List.take_zero, runBlocks, Prod.mk.injEq] at h
      obtain ⟨h1, h2, -⟩ := h
      subst h1
      subst h2
      simp only [List.drop_zero, List.nil_append]
  | succ i ih =>
      intro env n es n₁ h
      cases bs with
      | nil =>
          simp only [List.take_nil, runBlocks, Prod.mk.injEq] at h
          obtain ⟨h1, h2, -⟩ := h
          subst h1
          subst h2
          simp only [List.drop_nil, List.nil_append]
      | cons b tl =>
          simp only [List.take_succ_cons] at h
          rcases hb : b env n with ⟨es₀, n₀, c₀⟩
          cases c₀ with
          | cont =>
              rw [runBlocks_cons_cont hb] at h
              rcases hr : runBlocks (List.take i tl) env n₀ with ⟨es₁, n₂, c₁⟩
              rw [hr] at h
              simp only [Prod.mk.injEq] at h
              obtain ⟨he, hn, hc⟩ := h
              subst he
              rw [hn, hc] at hr
              have hres := ih tl env n₀ es₁ n₁ hr
              rw [runBlocks_cons_cont hb, hres]
              simp [List.append_assoc, List.drop_succ_cons]
          | ret =>
              rw [runBlocks_cons_stop (by simp) hb] at h
              simp at h
          | exn =>
              rw [runBlocks_cons_stop (by simp) hb] at h
              simp at h

theorem mem_flatten_take_succ {Ls : List (List String)} {i : Nat} (hi : i < Ls.length)
    {l : String} (h : l ∈ (Ls.take i).flatten ∨ l ∈ Ls.get ⟨i, hi⟩) :
    l ∈ (Ls.take (i + 1)).flatten := by
  have ht : Ls.take (i + 1) = Ls.take i ++ [Ls.get ⟨i, hi⟩] := by
    rw [List.get_eq_getElem, List.take_concat_get']
  rw [ht, List.flatten_append]
  rcases h with h | h
  · exact List.mem_append_left _ h
  · exact List.mem_append_right _ (by simpa [List.flatten_cons] using h)

/-! ### Exact behaviour of a stage on command failure -/

theorem run_command_err {proc : String → POutcome} {c : String} (d : String)
    {stderr : String} (herr : proc c = POutcome.err stderr) :
    run_command proc c d =
      ([Ev.info ("Running: " ++ d ++ "...") "running", Ev.spinnerStart d,
        Ev.spinnerSet, Ev.spinnerJoin,
        Ev.info ("ERROR: Command failed: " ++ c) "error",
        Ev.info ("ERROR: Error details: " ++ stderr) "error"], some false) := by
  unfold run_command
  rw [herr]
  rfl

theorem stdStep_fatal_ret (sp : StepSpec) (hfatal : sp.fatal = true)
    (env : Env) (n : Nat) (stderr : String)
    (hchk : check_output_exists env.fs sp.outs = false)
    (herr : env.proc sp.cmd = POutcome.err stderr) :
    stdStep sp env n =
      ([Ev.check sp.label sp.outs.toList, Ev.execute sp.label sp.cmd]
         ++ (run_command env.proc sp.cmd sp.label).1
         ++ [Ev.result sp.label StageRes.failed, Ev.info sp.failMsg "error"],
       n, Ctl.ret) := by
  have h2 : (run_command env.proc sp.cmd sp.label).2 = some false := by
    rw [run_command_err sp.label herr]
  unfold stdStep
  simp [hchk, h2, hfatal]

theorem stdStep_warn_cont (sp : StepSpec) (hfatal : sp.fatal = false)
    (env : Env) (n : Nat) (stderr : String)
    (hchk : check_output_exists env.fs sp.outs = false)
    (herr : env.proc sp.cmd = POutcome.err stderr) :
    stdStep sp env n =
      ([Ev.check sp.label sp.outs.toList, Ev.execute sp.label sp.cmd]
         ++ (run_command env.proc sp.cmd sp.label).1
         ++ [Ev.result sp.label StageRes.failed, Ev.info sp.failMsg "warning"],
       n, Ctl.cont) := by
  have h2 : (run_command env.proc sp.cmd sp.label).2 = some false := by
    rw [run_command_err sp.label herr]
  unfold stdStep
  simp [hchk, h2, hfatal]

/-! ### Claims -/

/-- C1: if a stage of the pipeline fails with the Fatal policy (its
`Exiting...`/`return` branch, i.e. the block leaves `main` with `Ctl.ret`),
the whole run halts there: a fatal standard stage whose check is false and
whose command fails leaves with `Ctl.ret` (first conjunct), and whenever the
run reaches block `i` and block `i` leaves with `Ctl.ret`, the entire run's
output is exactly the prefix output plus block `i`'s output — no later block
runs — and every stage-tagged event (Check, Parameterize/prompt, Execute,
result) in the whole run belongs to a stage of index at most `i`
(second conjunct). -/
theorem fatal_failure_halts :
    (∀ (sp : StepSpec) (env : Env) (n : Nat) (stderr : String),
        sp.fatal = true →
        check_output_exists env.fs sp.outs = false →
        env.proc sp.cmd = POutcome.err stderr →
        (stdStep sp env n).2.2 = Ctl.ret) ∧
    (∀ (i : Nat) (hi : i < mainBlocks.length) (env : Env) (n : Nat)
        (es es' : List Ev) (n₁ n' : Nat),
        runBlocks (mainBlocks.take i) env n = (es, n₁, Ctl.cont) →
        mainBlocks.get ⟨i, hi⟩ env n₁ = (es', n', Ctl.ret) →
        runBlocks mainBlocks env n = (es ++ es', n', Ctl.ret) ∧
        ∀ e ∈ es ++ es', ∀ l, e.stageTag = some l →
          l ∈ (mainLabels.take (i + 1)).flatten) := by
  constructor
  · intro sp env n stderr hfatal hchk herr
    rw [stdStep_fatal_ret sp hfatal env n stderr hchk herr]
  · intro i hi env n es es' n₁ n' hpre hblk
    have hstop := runBlocks_stop mainBlocks i hi env n es es' n₁ n' Ctl.ret (by simp) hpre hblk
    refine ⟨hstop, ?_⟩
    intro e he l htag
    have hlen : i < mainLabels.length := by
      have hll : mainLabels.length = mainBlocks.length := by rfl
      omega
    rcases List.mem_append.1 he with h | h
    · have hf := List.forall₂_take i mainBlocks_allOk
      have hall := runBlocks_allOk hf env n
      rw [hpre] at hall
      have h1 := List.all_eq_true.1 hall e h
      simp only [evOk, htag] at h1
      exact mem_flatten_take_succ hlen (Or.inl (contains_true_iff_mem.1 h1))
    · have hgets := (List.forall₂_iff_get.1 mainBlocks_allOk).2 i hi hlen
      have hall := hgets env n₁
      rw [hblk] at hall
      have h1 := List.all_eq_true.1 hall e h
      simp only [evOk, htag] at h1
      exact mem_flatten_take_succ hlen (Or.inr (contains_true_iff_mem.1 h1))

/-- A filesystem snapshot on which no artifact path exists (the required
prerequisite paths do exist as directory/file). -/
def fsEmpty : FS :=
  { isDir := fun _ => true, isFile := fun _ => true, pathExists := fun _ => false }

/-- Oracles for a run whose very first command fails. -/
def c1Env : Env :=
  { fs := fsEmpty, proc := fun _ => POutcome.err "boom", inputs := fun _ => "" }

/-- Witness for C1: with no outputs present and every command failing, the
first stage (sequence import, a Fatal stage) fails and the run halts with
exactly the first block's events. -/
theorem fatal_failure_halts_witness :
    ((stdStep spec1 c1Env 0).2.2 = Ctl.ret) ∧
    runBlocks mainBlocks c1Env 0 = ([] ++ (block1 c1Env 0).1, 0, Ctl.ret) :=
  ⟨fatal_failure_halts.1 spec1 c1Env 0 "boom" rfl rfl rfl,
   (fatal_failure_halts.2 0 (by decide) c1Env 0 [] (block1 c1Env 0).1 0 0 rfl rfl).1⟩

/-! ### Event predicates and counting helpers -/

/-- Is `e` the Check event of the stage labelled `l`? -/
def isCheckOf (l : String) : Ev → Bool
  | .check st _ => st == l
  | _ => false

/-- Is `e` the Execute event of the stage labelled `l`? -/
def isExecuteOf (l : String) : Ev → Bool
  | .execute st _ => st == l
  | _ => false

/-- Is `e` a parameter prompt of the stage labelled `l`? -/
def isParamPromptOf (l : String) : Ev → Bool
  | .paramPrompt st _ => st == l
  | _ => false

/-- All events of `es` are untagged (plain output / spinner / wait
prompts). -/
def tagFree (es : List Ev) : Prop := ∀ e ∈ es, e.stageTag = none

theorem isCheckOf_tag {l : String} {e : Ev} (h : isCheckOf l e = true) :
    e.stageTag ≠ none := by
  cases e <;> simp [isCheckOf] at h <;> simp [Ev.stageTag]

theorem isExecuteOf_tag {l : String} {e : Ev} (h : isExecuteOf l e = true) :
    e.stageTag ≠ none := by
  cases e <;> simp [isExecuteOf] at h <;> simp [Ev.stageTag]

theorem isParamPromptOf_tag {l : String} {e : Ev} (h : isParamPromptOf l e = true) :
    e.stageTag ≠ none := by
  cases e <;> simp [isParamPromptOf] at h <;> simp [Ev.stageTag]

theorem countP_eq_zero_of_tagFree {es : List Ev} (h : tagFree es) (p : Ev → Bool)
    (hp : ∀ e, p e = true → e.stageTag ≠ none) : es.countP p = 0 := by
  rw [List.countP_eq_zero]
  intro e he hpe
  exact (hp e hpe) (h e he)

theorem open_qzv_tagFree (fs : FS) (p : String) : tagFree (open_qzv_file fs p) := by
  intro e he
  unfold open_qzv_file at he
  split at he <;> simp at he <;>
    first
      | (rcases he with rfl | rfl | rfl | rfl | rfl <;> rfl)
      | (subst he; rfl)

theorem run_command_tagFree (proc : String → POutcome) (c d : String) :
    tagFree (run_command proc c d).1 := by
  intro e he
  unfold run_command at he
  split at he <;> simp at he <;>
    first
      | (rcases he with rfl | rfl | rfl | rfl | rfl | rfl <;> rfl)
      | (rcases he with rfl | rfl <;> rfl)

theorem check_prerequisites_tagFree (fs : FS) : tagFree (check_prerequisites fs).1 := by
  intro e he
  unfold check_prerequisites at he
  split at he
  · simp at he
    rcases he with rfl | rfl <;> rfl
  · split at he
    · simp at he
      rcases he with rfl | rfl <;> rfl
    · split at he <;> simp at he <;> rcases he with rfl | rfl <;> rfl

/-- C2: `check_output_exists` is true iff every path in the (normalised)
list exists; in particular, with only two of the three DADA2 outputs
present it returns false. -/
theorem check_output_exists_iff :
    (∀ (fs : FS) (files : Files),
        check_output_exists fs files = true ↔
          ∀ f ∈ files.toList, fs.pathExists f = true) ∧
    check_output_exists
        { isDir := fun _ => false, isFile := fun _ => false,
          pathExists := fun f => f == "dada-table.qza" || f == "dada-rep-seqs.qza" }
        (Files.list ["dada-table.qza", "dada-rep-seqs.qza", "dada-denoising-stats.qza"]) = false := by
  constructor
  · intro fs files
    simp [check_output_exists, List.all_eq_true]
  · decide

/-- If a stage's check is true, `stdStep` emits the Skipped result and
performs no Execute and no parameter prompt. -/
theorem stdStep_skip (sp : StepSpec) (env : Env) (n : Nat)
    (hchk : check_output_exists env.fs sp.outs = true) :
    Ev.result sp.label StageRes.skipped ∈ (stdStep sp env n).1 ∧
    ((stdStep sp env n).1).countP (isExecuteOf sp.label) = 0 ∧
    ((stdStep sp env n).1).countP (isParamPromptOf sp.label) = 0 := by
  have hzE : ∀ p', (open_qzv_file env.fs p').countP (isExecuteOf sp.label) = 0 :=
    fun p' => countP_eq_zero_of_tagFree (open_qzv_tagFree env.fs p') _
      (fun e h => isExecuteOf_tag h)
  have hzP : ∀ p', (open_qzv_file env.fs p').countP (isParamPromptOf sp.label) = 0 :=
    fun p' => countP_eq_zero_of_tagFree (open_qzv_tagFree env.fs p') _
      (fun e h => isParamPromptOf_tag h)
  unfold stdStep
  rw [hchk]
  simp only [if_true]
  split
  · split
    · exact ⟨by simp,
        by simp [List.countP_cons, List.countP_append, isExecuteOf, isParamPromptOf, hzE],
        by simp [List.countP_cons, List.countP_append, isExecuteOf, isParamPromptOf, hzP]⟩
    · exact ⟨by simp, by simp [List.countP_cons, isExecuteOf, isParamPromptOf],
        by simp [List.countP_cons, isExecuteOf, isParamPromptOf]⟩
  · exact ⟨by simp, by simp [List.countP_cons, isExecuteOf, isParamPromptOf],
      by simp [List.countP_cons, isExecuteOf, isParamPromptOf]⟩

/-- C9: the universal quantification over an empty output set is vacuously
true, so a stage declaring no expected outputs is always classified
already-complete: it emits Skipped and never executes. -/
theorem empty_outputs_always_skip :
    (∀ fs : FS, check_output_exists fs (Files.list []) = true) ∧
    (∀ (sp : StepSpec) (env : Env) (n : Nat), sp.outs = Files.list [] →
        Ev.result sp.label StageRes.skipped ∈ (stdStep sp env n).1 ∧
        ((stdStep sp env n).1).countP (isExecuteOf sp.label) = 0) := by
  constructor
  · intro fs; rfl
  · intro sp env n houts
    have hchk : check_output_exists env.fs sp.outs = true := by rw [houts]; rfl
    have h := stdStep_skip sp env n hchk
    exact ⟨h.1, h.2.1⟩

/-- A hypothetical stage declaring an empty `expectedOutputs` set. -/
def emptyOutsSpec : StepSpec :=
  { label := "Empty outputs stage", skipMsg := "Empty outputs stage",
    outs := Files.list [], cmd := "true", failMsg := "failed", fatal := true,
    skipView := none, postOpen := none }

/-- Witness for C9 at a concrete stage with an empty output set. -/
theorem empty_outputs_always_skip_witness :
    Ev.result "Empty outputs stage" StageRes.skipped ∈ (stdStep emptyOutsSpec c1Env 0).1 ∧
    ((stdStep emptyOutsSpec c1Env 0).1).countP (isExecuteOf "Empty outputs stage") = 0 :=
  empty_outputs_always_skip.2 emptyOutsSpec c1Env 0 rfl

/-- C8: `run_command` reports success exactly when the command exits 0; on
`CalledProcessError` (nonzero exit, or the shell reporting a launch
failure) it returns False, emits the failed command and the captured
stderr, and does not raise. -/
theorem run_command_success_iff :
    ∀ (proc : String → POutcome) (c d : String),
      ((run_command proc c d).2 = some true ↔ proc c = POutcome.ok) ∧
      (∀ stderr, proc c = POutcome.err stderr →
        (run_command proc c d).2 = some false ∧
        Ev.info ("ERROR: Command failed: " ++ c) "error" ∈ (run_command proc c d).1 ∧
        Ev.info ("ERROR: Error details: " ++ stderr) "error" ∈ (run_command proc c d).1) := by
  intro proc c d
  constructor
  · constructor
    · intro h
      cases hp : proc c with
      | ok => rfl
      | err stderr => rw [run_command_err d hp] at h; simp at h
      | exn => simp [run_command, hp] at h
    · intro h
      simp [run_command, h]
  · intro stderr herr
    rw [run_command_err d herr]
    exact ⟨rfl, by simp, by simp⟩

/-- A process oracle whose every command raises `CalledProcessError`. -/
def procErrW : String → POutcome := fun _ => POutcome.err "stderr text"

/-- Witness for C8 on a failing command. -/
theorem run_command_success_iff_witness :
    (run_command procErrW "cmd" "descr").2 = some false ∧
    Ev.info ("ERROR: Command failed: " ++ "cmd") "error" ∈ (run_command procErrW "cmd" "descr").1 ∧
    Ev.info ("ERROR: Error details: " ++ "stderr text") "error" ∈ (run_command procErrW "cmd" "descr").1 :=
  (run_command_success_iff procErrW "cmd" "descr").2 "stderr text" rfl

/-- A process oracle whose every command raises an exception other than
`CalledProcessError` (e.g. `KeyboardInterrupt` or an `OSError` while
spawning): `run_command` catches only `CalledProcessError`. -/
def procExn : String → POutcome := fun _ => POutcome.exn

/-- Counterexample to C4: on the uncaught-exception exit path the spinner
stop event is never set (zero cancellations, not exactly one) and the
exception propagates out of `run_command` (`none`), so the cancellation
signal is not raised on every exit path. -/
theorem spinner_not_cancelled_on_exn :
    ((run_command procExn "cmd" "descr").1).countP (fun e => e == Ev.spinnerSet) = 0 ∧
    (run_command procExn "cmd" "descr").2 = none := by
  constructor <;> rfl

/-- C4 amended: on the two handled exit paths (exit 0 and
`CalledProcessError`) the stop event is set exactly once and the spinner
thread is joined immediately after, before the final status message(s); on
any other exception `run_command` propagates it after emitting only the
start message and spawning the spinner, without ever setting the stop
event. -/
theorem spinner_cancel_discipline :
    ∀ (proc : String → POutcome) (c d : String),
      (proc c = POutcome.ok →
        run_command proc c d =
          ([Ev.info ("Running: " ++ d ++ "...") "running", Ev.spinnerStart d,
            Ev.spinnerSet, Ev.spinnerJoin,
            Ev.info ("Successfully completed: " ++ d) "success"], some true)) ∧
      (∀ stderr, proc c = POutcome.err stderr →
        run_command proc c d =
          ([Ev.info ("Running: " ++ d ++ "...") "running", Ev.spinnerStart d,
            Ev.spinnerSet, Ev.spinnerJoin,
            Ev.info ("ERROR: Command failed: " ++ c) "error",
            Ev.info ("ERROR: Error details: " ++ stderr) "error"], some false)) ∧
      (proc c = POutcome.exn →
        run_command proc c d =
          ([Ev.info ("Running: " ++ d ++ "...") "running", Ev.spinnerStart d], none)) := by
  intro proc c d
  refine ⟨fun h => ?_, fun stderr h => run_command_err d h, fun h => ?_⟩
  · unfold run_command
    rw [h]
    rfl
  · unfold run_command
    rw [h]

/-- A process oracle on which every command succeeds. -/
def procOkW : String → POutcome := fun _ => POutcome.ok

/-- Witness for the amended C4 on the success and exception paths. -/
theorem spinner_cancel_discipline_witness :
    run_command procOkW "cmd" "descr" =
      ([Ev.info ("Running: " ++ "descr" ++ "...") "running", Ev.spinnerStart "descr",
        Ev.spinnerSet, Ev.spinnerJoin,
        Ev.info ("Successfully completed: " ++ "descr") "success"], some true) ∧
    run_command procExn "cmd" "descr" =
      ([Ev.info ("Running: " ++ "descr" ++ "...") "running", Ev.spinnerStart "descr"], none) :=
  ⟨(spinner_cancel_discipline procOkW "cmd" "descr").1 rfl,
   (spinner_cancel_discipline procExn "cmd" "descr").2.2 rfl⟩

/-- C7: if any of the three required external inputs is missing, `main`
returns right after the prerequisite check: an error is reported, no input
is consumed, and no stage event (Check, Execute, result, or any prompt
belonging to a stage) is ever emitted. -/
theorem missing_prerequisite_halts :
    ∀ (env : Env) (n : Nat),
      (env.fs.isDir "paired-end-demultiplexed" = false ∨
       env.fs.isFile "metadata.tsv" = false ∨
       env.fs.isFile "classifier.qza" = false) →
      (mainRun env n).2.2 = Ctl.ret ∧
      (mainRun env n).2.1 = n ∧
      (∃ t, Ev.info t "error" ∈ (mainRun env n).1) ∧
      (∀ e ∈ (mainRun env n).1, e.stageTag = none) := by
  intro env n h
  have hpr : (check_prerequisites env.fs).2 = false := by
    rcases h with h | h | h
    · simp [check_prerequisites, h]
    · cases hd : env.fs.isDir "paired-end-demultiplexed" <;>
        simp [check_prerequisites, h, hd]
    · cases hd : env.fs.isDir "paired-end-demultiplexed" <;>
        cases hmd : env.fs.isFile "metadata.tsv" <;>
          simp [check_prerequisites, h, hd, hmd]
  have htf := check_prerequisites_tagFree env.fs
  unfold mainRun
  simp only [hpr, Bool.false_eq_true, if_false]
  refine ⟨by trivial, by trivial,
    ⟨"Please add the missing files and run the script again", by simp⟩, ?_⟩
  intro e he
  simp only [List.append_assoc, List.mem_append, List.mem_cons, List.not_mem_nil,
    or_false] at he
  rcases he with h1 | h1 | h1
  · rcases h1 with rfl | rfl | rfl | rfl | rfl <;> rfl
  · exact htf e h1
  · rw [h1]; rfl

/-- Oracles for a machine with none of the prerequisite inputs present. -/
def c7Env : Env :=
  { fs := { isDir := fun _ => false, isFile := fun _ => false,
            pathExists := fun _ => false },
    proc := fun _ => POutcome.ok, inputs := fun _ => "" }

/-- Witness for C7: the input directory is missing, so the run halts before
any stage. -/
theorem missing_prerequisite_halts_witness :
    (mainRun c7Env 0).2.2 = Ctl.ret ∧
    (mainRun c7Env 0).2.1 = 0 ∧
    (∃ t, Ev.info t "error" ∈ (mainRun c7Env 0).1) ∧
    (∀ e ∈ (mainRun c7Env 0).1, e.stageTag = none) :=
  missing_prerequisite_halts c7Env 0 (Or.inl rfl)

/-! ### C3 and C10: prompting, skipping and yes/no semantics -/

/-- If a stage's check is false, its Execute event is emitted (whatever the
command's outcome). -/
theorem stdStep_execute_mem (sp : StepSpec) (env : Env) (n : Nat)
    (hchk : check_output_exists env.fs sp.outs = false) :
    Ev.execute sp.label sp.cmd ∈ (stdStep sp env n).1 := by
  unfold stdStep
  rw [hchk]
  simp only [Bool.false_eq_true, if_false]
  split
  · simp
  · split <;> simp
  · split <;> simp

/-- A standard stage block never emits a parameter prompt. -/
theorem stdStep_countP_paramPrompt (sp : StepSpec) (env : Env) (n : Nat) (l : String) :
    ((stdStep sp env n).1).countP (isParamPromptOf l) = 0 := by
  have hz : ∀ p', (open_qzv_file env.fs p').countP (isParamPromptOf l) = 0 :=
    fun p' => countP_eq_zero_of_tagFree (open_qzv_tagFree env.fs p') _
      (fun e h => isParamPromptOf_tag h)
  have hr : ((run_command env.proc sp.cmd sp.label).1).countP (isParamPromptOf l) = 0 :=
    countP_eq_zero_of_tagFree (run_command_tagFree env.proc sp.cmd sp.label) _
      (fun e h => isParamPromptOf_tag h)
  unfold stdStep
  split
  · split
    · split <;> simp [List.countP_cons, List.countP_append, isParamPromptOf, hz]
    · simp [List.countP_cons, isParamPromptOf]
  · split
    · simp [List.countP_cons, List.countP_append, isParamPromptOf, hr]
    · split <;> simp [List.countP_cons, List.countP_append, isParamPromptOf, hz, hr]
    · split <;> simp [List.countP_cons, List.countP_append, isParamPromptOf, hr]

/-- Oracles on which exactly `trim-seqs.qza` (stage 3's expected output)
already exists. -/
def c3Env : Env :=
  { fs := { isDir := fun _ => true, isFile := fun _ => true,
            pathExists := fun f => f == "trim-seqs.qza" },
    proc := fun _ => POutcome.ok, inputs := fun _ => "" }

/-- Counterexample to C3: with `trim-seqs.qza` present, the adapter-trimming
stage is Skipped, yet its parameter prompt (the custom-primer question) is
still issued — a skipped stage does trigger parameter prompting, because the
prompt precedes the Check in the code. -/
theorem skipped_stage_prompts :
    Ev.result "Adapter trimming" StageRes.skipped ∈ (block3 c3Env 0).1 ∧
    Ev.paramPrompt "Adapter trimming" "Do you want to use custom primers? (yes/no): "
      ∈ (block3 c3Env 0).1 := by
  constructor <;> decide

/-- C3 amended: for every stage, a true Check yields a Skipped result with
no Execute; standard stages indeed prompt for parameters only on the
execution path (never at all — their prompts are view prompts); but the
parameterized stages prompt unconditionally: stages 3 and 4 issue their
parameter prompt before the Check, and stages 12 and 20 prompt for a depth
even on the skip path. -/
theorem check_skip_and_prompting :
    (∀ (sp : StepSpec) (env : Env) (n : Nat),
        check_output_exists env.fs sp.outs = true →
        Ev.result sp.label StageRes.skipped ∈ (stdStep sp env n).1 ∧
        ((stdStep sp env n).1).countP (isExecuteOf sp.label) = 0 ∧
        ((stdStep sp env n).1).countP (isParamPromptOf sp.label) = 0) ∧
    (∀ (env : Env) (n : Nat),
        Ev.paramPrompt "Adapter trimming" "Do you want to use custom primers? (yes/no): "
          ∈ (block3 env n).1) ∧
    (∀ (env : Env) (n : Nat),
        Ev.paramPrompt "DADA2 denoising" "Do you want to customize DADA2 truncation parameters? (yes/no): "
          ∈ (block4 env n).1) ∧
    (∀ (env : Env) (n : Nat),
        check_output_exists env.fs (Files.str "alpha-rarefaction.qzv") = true →
        Ev.result "Alpha rarefaction analysis" StageRes.skipped ∈ (block12 env n).1 ∧
        Ev.paramPrompt "Alpha rarefaction analysis" "Enter the maximum rarefaction depth you determined from the plot: "
          ∈ (block12 env n).1 ∧
        ((block12 env n).1).countP (isExecuteOf "Alpha rarefaction analysis") = 0) ∧
    (∀ (env : Env) (n : Nat),
        check_output_exists env.fs (Files.list metricsOutputs) = true →
        Ev.result "Core metrics phylogenetic analysis" StageRes.skipped ∈ (block20 env n).1 ∧
        Ev.paramPrompt "Core metrics phylogenetic analysis" "Enter the sampling depth you previously used for diversity analyses: "
          ∈ (block20 env n).1 ∧
        ((block20 env n).1).countP (isExecuteOf "Core metrics phylogenetic analysis") = 0) := by
  refine ⟨fun sp env n hchk => stdStep_skip sp env n hchk, ?_, ?_, ?_, ?_⟩
  · intro env n
    simp only [block3]
    split <;> simp
  · intro env n
    simp only [block4]
    split <;> simp
  · intro env n hchk
    have hzE : ∀ p', (open_qzv_file env.fs p').countP (isExecuteOf "Alpha rarefaction analysis") = 0 :=
      fun p' => countP_eq_zero_of_tagFree (open_qzv_tagFree env.fs p') _
        (fun e h => isExecuteOf_tag h)
    simp only [block12]
    rw [hchk]
    simp only [if_true]
    split <;>
      refine ⟨by simp, by simp, ?_⟩ <;>
        simp [List.countP_cons, List.countP_append, isExecuteOf, hzE,
              afterRarefactionEvents]
  · intro env n hchk
    simp only [block20]
    rw [hchk]
    simp only [if_true]
    refine ⟨by simp, by simp, ?_⟩
    simp [List.countP_cons, isExecuteOf]

/-- Oracles on which every artifact already exists. -/
def allExistsEnv : Env :=
  { fs := { isDir := fun _ => true, isFile := fun _ => true,
            pathExists := fun _ => true },
    proc := fun _ => POutcome.ok, inputs := fun _ => "" }

/-- Witness for the amended C3: a pre-existing stage-3 output is Skipped,
and the skipped alpha-rarefaction stage still prompts for a depth. -/
theorem check_skip_and_prompting_witness :
    Ev.result (spec3 defaultForwardPrimer defaultReversePrimer).label StageRes.skipped
      ∈ (stdStep (spec3 defaultForwardPrimer defaultReversePrimer) allExistsEnv 0).1 ∧
    Ev.paramPrompt "Alpha rarefaction analysis" "Enter the maximum rarefaction depth you determined from the plot: "
      ∈ (block12 allExistsEnv 0).1 :=
  ⟨(check_skip_and_prompting.1 (spec3 defaultForwardPrimer defaultReversePrimer)
      allExistsEnv 0 rfl).1,
   (check_skip_and_prompting.2.2.2.1 allExistsEnv 0 rfl).2.1⟩

/-- C10: a response is affirmative exactly when its stripped, lowercased
form is `yes` or `y` (and the two syntactic forms of the test used in the
script agree); a declined custom-primer prompt consumes exactly one prompt
(no re-prompt) and the built command embeds the stage-declared default
primers. -/
theorem yes_no_semantics :
    (∀ r : String,
        (yesEq (pyLower (pyStrip r)) = true ↔
          pyLower (pyStrip r) = "yes" ∨ pyLower (pyStrip r) = "y") ∧
        (yesIn (pyLower (pyStrip r)) = true ↔ yesEq (pyLower (pyStrip r)) = true)) ∧
    (∀ (env : Env) (n : Nat),
        yesEq (pyLower (pyStrip (env.inputs n))) = false →
        ((block3 env n).1).countP (isParamPromptOf "Adapter trimming") = 1 ∧
        (check_output_exists env.fs (Files.str "trim-seqs.qza") = false →
          Ev.execute "Adapter trimming" (cmd3 defaultForwardPrimer defaultReversePrimer)
            ∈ (block3 env n).1)) := by
  constructor
  · intro r
    constructor
    · simp [yesEq]
    · simp [yesIn, yesEq, List.contains_cons]
  · intro env n h
    constructor
    · simp only [block3]
      rw [h]
      simp only [Bool.false_eq_true, if_false]
      rw [List.countP_append, stdStep_countP_paramPrompt]
      simp [List.countP_cons, isParamPromptOf]
    · intro hchk
      simp only [block3]
      rw [h]
      simp only [Bool.false_eq_true, if_false]
      refine List.mem_append_right _ ?_
      exact stdStep_execute_mem (spec3 defaultForwardPrimer defaultReversePrimer) env (n + 1) hchk

/-- Witness for C10: the empty response declines, one prompt is consumed,
and the default-primer command is executed. -/
theorem yes_no_semantics_witness :
    ((block3 c1Env 0).1).countP (isParamPromptOf "Adapter trimming") = 1 ∧
    Ev.execute "Adapter trimming" (cmd3 defaultForwardPrimer defaultReversePrimer)
      ∈ (block3 c1Env 0).1 :=
  ⟨(yes_no_semantics.2 c1Env 0 rfl).1, (yes_no_semantics.2 c1Env 0 rfl).2 rfl⟩

/-! ### C6: the export phase -/

theorem runForEach_cons_cont {f : String → Block} {m : String} {env : Env}
    {n : Nat} {es : List Ev} {n' : Nat} (ms : List String)
    (h : f m env n = (es, n', Ctl.cont)) :
    runForEach f (m :: ms) env n =
      (es ++ (runForEach f ms env n').1,
       (runForEach f ms env n').2.1, (runForEach f ms env n').2.2) := by
  conv_lhs => unfold runForEach
  rw [h]

theorem runForEach_cons_stop {f : String → Block} {m : String} {env : Env}
    {n : Nat} {es : List Ev} {n' : Nat} {fl : Ctl} (ms : List String)
    (hfl : fl ≠ Ctl.cont) (h : f m env n = (es, n', fl)) :
    runForEach f (m :: ms) env n = (es, n', fl) := by
  conv_lhs => unfold runForEach
  rw [h]
  cases fl with
  | cont => exact absurd rfl hfl
  | ret => rfl
  | exn => rfl

/-- A non-fatal standard stage never leaves `main` by `return`. -/
theorem stdStep_no_ret (sp : StepSpec) (hfatal : sp.fatal = false)
    (env : Env) (n : Nat) : (stdStep sp env n).2.2 ≠ Ctl.ret := by
  unfold stdStep
  split
  · split
    · split <;> simp
    · simp
  · split
    · simp
    · split <;> simp
    · simp [hfatal]

theorem runForEach_no_ret (f : String → Block) (env : Env) (ms : List String)
    (hf : ∀ m ∈ ms, ∀ n, (f m env n).2.2 ≠ Ctl.ret) :
    ∀ n, (runForEach f ms env n).2.2 ≠ Ctl.ret := by
  induction ms with
  | nil => intro n; simp [runForEach]
  | cons m ms ih =>
      intro n
      rcases hfm : f m env n with ⟨es₀, n₀, c₀⟩
      cases c₀ with
      | cont =>
          rw [runForEach_cons_cont ms hfm]
          exact ih (fun m' hm' => hf m' (by simp [hm'])) n₀
      | ret =>
          have := hf m (by simp) n
          rw [hfm] at this
          simp at this
      | exn =>
          rw [runForEach_cons_stop ms (by simp) hfm]
          simp

theorem alphaExportItem_no_ret (m : String) (env : Env) (n : Nat) :
    (alphaExportItem m env n).2.2 ≠ Ctl.ret := by
  unfold alphaExportItem
  split
  · exact stdStep_no_ret _ rfl env n
  · simp

theorem betaExportItem_no_ret (m : String) (env : Env) (n : Nat) :
    (betaExportItem m env n).2.2 ≠ Ctl.ret := by
  unfold betaExportItem
  split
  · exact stdStep_no_ret _ rfl env n
  · simp

theorem runForEach_tag (f : String → Block) (env : Env) (bad : String)
    (ms : List String)
    (hf : ∀ m ∈ ms, ∀ n, ∀ e ∈ (f m env n).1, e.stageTag ≠ some bad) :
    ∀ n, ∀ e ∈ (runForEach f ms env n).1, e.stageTag ≠ some bad := by
  induction ms with
  | nil => intro n e he; simp [runForEach] at he
  | cons m ms ih =>
      intro n e he
      rcases hfm : f m env n with ⟨es₀, n₀, c₀⟩
      cases c₀ with
      | cont =>
          rw [runForEach_cons_cont ms hfm] at he
          rcases List.mem_append.1 he with h | h
          · exact hf m (by simp) n e (by rw [hfm]; exact h)
          · exact ih (fun m' hm' => hf m' (by simp [hm'])) n₀ e h
      | ret =>
          rw [runForEach_cons_stop ms (by simp) hfm] at he
          exact hf m (by simp) n e (by rw [hfm]; exact he)
      | exn =>
          rw [runForEach_cons_stop ms (by simp) hfm] at he
          exact hf m (by simp) n e (by rw [hfm]; exact he)

theorem alphaExportItem_tag (m' : String) (env : Env) (n : Nat) :
    ∀ e ∈ (alphaExportItem m' env n).1, ∀ l, e.stageTag = some l →
      l = m' ++ " export" := by
  intro e he l htag
  unfold alphaExportItem at he
  split at he
  · have hall := stdStep_evOk (specAlphaExport m') [m' ++ " export"]
      (by simp [specAlphaExport]) env n
    have h1 := List.all_eq_true.1 hall e he
    simp only [evOk, htag] at h1
    simpa using contains_true_iff_mem.1 h1
  · simp at he

theorem betaExportItem_tag (m' : String) (env : Env) (n : Nat) :
    ∀ e ∈ (betaExportItem m' env n).1, ∀ l, e.stageTag = some l →
      l = m' ++ " export" := by
  intro e he l htag
  unfold betaExportItem at he
  split at he
  · have hall := stdStep_evOk (specBetaExport m') [m' ++ " export"]
      (by simp [specBetaExport]) env n
    have h1 := List.all_eq_true.1 hall e he
    simp only [evOk, htag] at h1
    simpa using contains_true_iff_mem.1 h1
  · simp at he

/-- C6: every stage of the export phase has the Warn policy — no export
block can leave `main` by `return`, so a single export failure never aborts
the remaining exports — and an iterated alpha/beta export element whose
upstream artifact is absent is omitted entirely: no event of that element's
stage (no Check, no Execute, no result — in particular no Failed) is ever
emitted. -/
theorem export_phase_warn :
    (∀ b ∈ exportPhase, ∀ (env : Env) (n : Nat), (b env n).2.2 ≠ Ctl.ret) ∧
    (∀ m ∈ alphaMetrics, ∀ (env : Env) (n : Nat),
        env.fs.pathExists ("metrics/" ++ m ++ "_vector.qza") = false →
        ∀ e ∈ (blockAlphaExports env n).1, e.stageTag ≠ some (m ++ " export")) ∧
    (∀ m ∈ betaMetrics, ∀ (env : Env) (n : Nat),
        env.fs.pathExists ("metrics/" ++ m ++ "_distance_matrix.qza") = false →
        ∀ e ∈ (blockBetaExports env n).1, e.stageTag ≠ some (m ++ " export")) := by
  refine ⟨?_, ?_, ?_⟩
  · intro b hb env n
    fin_cases hb
    · exact stdStep_no_ret specExportFeatureTable rfl env n
    · exact stdStep_no_ret specBiomConvert rfl env n
    · exact stdStep_no_ret specExportTaxonomy rfl env n
    · exact stdStep_no_ret specExportRepSeqs rfl env n
    · exact stdStep_no_ret specExportPhylogeny rfl env n
    · exact runForEach_no_ret alphaExportItem env alphaMetrics
        (fun m _ n' => alphaExportItem_no_ret m env n') n
    · exact runForEach_no_ret betaExportItem env betaMetrics
        (fun m _ n' => betaExportItem_no_ret m env n') n
    · exact stdStep_no_ret specExportCollapsed rfl env n
    · exact stdStep_no_ret specCollapsedConvert rfl env n
  · intro m hm env n hguard e he htag
    have he' : e ∈ (runForEach alphaExportItem alphaMetrics env n).1 := by
      rcases List.mem_cons.1 he with h | h
      · rw [h] at htag; simp [Ev.stageTag] at htag
      · exact h
    refine runForEach_tag alphaExportItem env (m ++ " export") alphaMetrics
      ?_ n e he' htag
    intro m' hm' n' e' he' htag'
    have h2 := alphaExportItem_tag m' env n' e' he' (m ++ " export") htag'
    fin_cases hm <;> fin_cases hm' <;>
      first
        | (unfold alphaExportItem at he'; rw [hguard] at he'; simp at he')
        | simp at h2
  · intro m hm env n hguard e he htag
    have he' : e ∈ (runForEach betaExportItem betaMetrics env n).1 := by
      rcases List.mem_cons.1 he with h | h
      · rw [h] at htag; simp [Ev.stageTag] at htag
      · exact h
    refine runForEach_tag betaExportItem env (m ++ " export") betaMetrics
      ?_ n e he' htag
    intro m' hm' n' e' he' htag'
    have h2 := betaExportItem_tag m' env n' e' he' (m ++ " export") htag'
    fin_cases hm <;> fin_cases hm' <;>
      first
        | (unfold betaExportItem at he'; rw [hguard] at he'; simp at he')
        | simp at h2

/-- Witness for C6: the warn policy of the first export stage and the
omission of the shannon element when its upstream vector is absent. -/
theorem export_phase_warn_witness :
    (blockExportFeatureTable c1Env 0).2.2 ≠ Ctl.ret ∧
    (∀ e ∈ (blockAlphaExports c1Env 0).1, e.stageTag ≠ some ("shannon" ++ " export")) :=
  ⟨export_phase_warn.1 blockExportFeatureTable (by simp [exportPhase]) c1Env 0,
   fun e he => export_phase_warn.2.1 "shannon" (by simp [alphaMetrics]) c1Env 0 rfl e he⟩

/-! ### C5: a Warn failure never prevents the next stage -/

theorem countP_check_zero_of_evOk {L : List String} {es : List Ev} {l : String}
    (hall : es.all (evOk L) = true) (hl : l ∉ L) :
    es.countP (isCheckOf l) = 0 := by
  rw [List.countP_eq_zero]
  intro e he hpe
  have h1 := List.all_eq_true.1 hall e he
  cases e <;> simp [isCheckOf] at hpe
  subst hpe
  simp only [evOk, Ev.stageTag] at h1
  exact hl (contains_true_iff_mem.1 h1)

theorem stdStep_check_once (sp : StepSpec) (env : Env) (n : Nat) :
    ((stdStep sp env n).1).countP (isCheckOf sp.label) = 1 := by
  have hz : ∀ p', (open_qzv_file env.fs p').countP (isCheckOf sp.label) = 0 :=
    fun p' => countP_eq_zero_of_tagFree (open_qzv_tagFree env.fs p') _
      (fun e h => isCheckOf_tag h)
  have hr : ((run_command env.proc sp.cmd sp.label).1).countP (isCheckOf sp.label) = 0 :=
    countP_eq_zero_of_tagFree (run_command_tagFree env.proc sp.cmd sp.label) _
      (fun e h => isCheckOf_tag h)
  unfold stdStep
  split
  · split
    · split <;> simp [List.countP_cons, List.countP_append, isCheckOf, hz]
    · simp [List.countP_cons, isCheckOf]
  · split
    · simp [List.countP_cons, List.countP_append, isCheckOf, hr]
    · split <;> simp [List.countP_cons, List.countP_append, isCheckOf, hz, hr]
    · split <;> simp [List.countP_cons, List.countP_append, isCheckOf, hr]

theorem blockOf_check_once (hdr : List Ev) (sp : StepSpec)
    (hhdr : hdr.countP (isCheckOf sp.label) = 0) (env : Env) (n : Nat) :
    ((blockOf hdr sp env n).1).countP (isCheckOf sp.label) = 1 := by
  show ((hdr ++ (stdStep sp env n).1).countP (isCheckOf sp.label)) = 1
  rw [List.countP_append, hhdr, stdStep_check_once]

theorem block20_check_once (env : Env) (n : Nat) :
    ((block20 env n).1).countP (isCheckOf "Core metrics phylogenetic analysis") = 1 := by
  have hr : ∀ c, ((run_command env.proc c "Core metrics phylogenetic analysis").1).countP
      (isCheckOf "Core metrics phylogenetic analysis") = 0 :=
    fun c => countP_eq_zero_of_tagFree (run_command_tagFree env.proc c _) _
      (fun e h => isCheckOf_tag h)
  simp only [block20]
  split
  · simp [List.countP_cons, isCheckOf]
  · split <;> simp [List.countP_cons, List.countP_append, isCheckOf, hr]

theorem runBlocks_append_cont {xs : List Block} (ys : List Block) {env : Env}
    {n : Nat} {es : List Ev} {n₁ : Nat}
    (h : runBlocks xs env n = (es, n₁, Ctl.cont)) :
    runBlocks (xs ++ ys) env n =
      (es ++ (runBlocks ys env n₁).1,
       (runBlocks ys env n₁).2.1, (runBlocks ys env n₁).2.2) := by
  induction xs generalizing n es with
  | nil =>
      simp only [runBlocks, Prod.mk.injEq] at h
      obtain ⟨h1, h2, -⟩ := h
      subst h1
      subst h2
      simp only [List.nil_append]
  | cons b tl ih =>
      rcases hb : b env n with ⟨es₀, n₀, c₀⟩
      cases c₀ with
      | cont =>
          rw [runBlocks_cons_cont hb] at h
          rcases hr : runBlocks tl env n₀ with ⟨es₁, n₂, c₁⟩
          rw [hr] at h
          simp only [Prod.mk.injEq] at h
          obtain ⟨he, hn, hc⟩ := h
          subst he
          rw [hn, hc] at hr
          have hres := ih hr
          rw [List.cons_append, runBlocks_cons_cont hb, hres]
          simp [List.append_assoc]
      | ret =>
          rw [runBlocks_cons_stop (by simp) hb] at h
          simp at h
      | exn =>
          rw [runBlocks_cons_stop (by simp) hb] at h
          simp at h

/-- The generic shape behind C5: if the run reaches a non-fatal standard
stage and that stage's command fails, then the failure is recorded and
surfaced as a warning, and the next block's Check is executed exactly once
in the whole run (no earlier and no later block emits a Check with the next
stage's label). -/
theorem warn_then_check
    (bs pre post : List Block) (bnext : Block)
    (hdr : List Ev) (sp : StepSpec) (l' : String)
    (hpreL hpostL : List (List String))
    (hbs : bs = pre ++ blockOf hdr sp :: bnext :: post)
    (hfatal : sp.fatal = false)
    (hhdr : hdr.countP (isCheckOf l') = 0)
    (hsp : sp.label ≠ l')
    (hnext1 : ∀ env n, ((bnext env n).1).countP (isCheckOf l') = 1)
    (hpreF : List.Forall₂ allOk pre hpreL)
    (hpostF : List.Forall₂ allOk post hpostL)
    (hpre0 : l' ∉ hpreL.flatten)
    (hpost0 : l' ∉ hpostL.flatten)
    (env : Env) (n : Nat) (es : List Ev) (n₁ : Nat) (stderr : String)
    (hreach : runBlocks pre env n = (es, n₁, Ctl.cont))
    (hchk : check_output_exists env.fs sp.outs = false)
    (herr : env.proc sp.cmd = POutcome.err stderr) :
    Ev.result sp.label StageRes.failed ∈ (runBlocks bs env n).1 ∧
    Ev.info sp.failMsg "warning" ∈ (runBlocks bs env n).1 ∧
    ((runBlocks bs env n).1).countP (isCheckOf l') = 1 := by
  subst hbs
  have hw : blockOf hdr sp env n₁ =
      (hdr ++ ([Ev.check sp.label sp.outs.toList, Ev.execute sp.label sp.cmd]
         ++ (run_command env.proc sp.cmd sp.label).1
         ++ [Ev.result sp.label StageRes.failed, Ev.info sp.failMsg "warning"]),
       n₁, Ctl.cont) := by
    unfold blockOf
    rw [stdStep_warn_cont sp hfatal env n₁ stderr hchk herr]
  have hfull := runBlocks_append_cont (blockOf hdr sp :: bnext :: post) hreach
  have hmid := @runBlocks_cons_cont (blockOf hdr sp) (bnext :: post) env n₁ _ _ hw
  have hces : es.countP (isCheckOf l') = 0 := by
    have hall := runBlocks_allOk hpreF env n
    rw [hreach] at hall
    exact countP_check_zero_of_evOk hall hpre0
  have hrz : ((run_command env.proc sp.cmd sp.label).1).countP (isCheckOf l') = 0 :=
    countP_eq_zero_of_tagFree (run_command_tagFree env.proc sp.cmd sp.label) _
      (fun e h => isCheckOf_tag h)
  rcases hb2 : bnext env n₁ with ⟨es₂, n₂, c₂⟩
  have hc2 : es₂.countP (isCheckOf l') = 1 := by
    have h := hnext1 env n₁
    rw [hb2] at h
    exact h
  rw [hfull, hmid]
  cases c₂ with
  | cont =>
      rw [runBlocks_cons_cont hb2]
      have hcp : ((runBlocks post env n₂).1).countP (isCheckOf l') = 0 := by
        have hall := runBlocks_allOk hpostF env n₂
        exact countP_check_zero_of_evOk hall hpost0
      refine ⟨by simp, by simp, ?_⟩
      simp [List.countP_append, List.countP_cons, isCheckOf, hces, hhdr, hrz, hc2, hcp, hsp]
  | ret =>
      rw [runBlocks_cons_stop (by simp) hb2]
      refine ⟨by simp, by simp, ?_⟩
      simp [List.countP_append, List.countP_cons, isCheckOf, hces, hhdr, hrz, hc2, hsp]
  | exn =>
      rw [runBlocks_cons_stop (by simp) hb2]
      refine ⟨by simp, by simp, ?_⟩
      simp [List.countP_append, List.countP_cons, isCheckOf, hces, hhdr, hrz, hc2, hsp]

/-- The non-fatal (Warn) standard stages of the pipeline, each as (index in
`mainBlocks`, its `StepSpec`, the label of the following stage). -/
def warnTriples : List (Nat × StepSpec × String) :=
  [   (4, spec5, "Representative sequences tabulation"),
   (5, spec6, "Feature table summarization"),
   (6, spec7, "MAFFT alignment"),
   (13, spec14, "Feature table filtering"),
   (17, spec18, "Taxonomy barplot generation"),
   (18, spec19, "Core metrics phylogenetic analysis"),
   (20, specExportFeatureTable, "Biom to TSV conversion"),
   (21, specBiomConvert, "Taxonomy export"),
   (22, specExportTaxonomy, "Representative sequences export"),
   (23, specExportRepSeqs, "Phylogenetic tree export"),
   (27, specExportCollapsed, "Collapsed biom to TSV conversion")]

/-- C5: whenever the run reaches one of the Warn stages and that stage's
command fails (its outputs absent, the process exiting nonzero), the
failure is recorded as a Failed result, a warning is surfaced, and the
following stage's Check is invoked exactly once in the whole run — the
Warn failure never prevents the later stages from being attempted. -/
theorem warn_failure_continues :
    ∀ t ∈ warnTriples,
      ∀ (env : Env) (n : Nat) (es : List Ev) (n₁ : Nat) (stderr : String),
        runBlocks (mainBlocks.take t.1) env n = (es, n₁, Ctl.cont) →
        check_output_exists env.fs t.2.1.outs = false →
        env.proc t.2.1.cmd = POutcome.err stderr →
        Ev.result t.2.1.label StageRes.failed ∈ (runBlocks mainBlocks env n).1 ∧
        Ev.info t.2.1.failMsg "warning" ∈ (runBlocks mainBlocks env n).1 ∧
        ((runBlocks mainBlocks env n).1).countP (isCheckOf t.2.2) = 1 := by
  intro t hmem env n es n₁ stderr hreach hchk herr
  fin_cases hmem
  · exact warn_then_check mainBlocks (mainBlocks.take 4) (mainBlocks.drop 6) block6
        [Ev.info "\n===== STEP 5: VIEWING DENOISING STATISTICS =====" "info"] spec5
        "Representative sequences tabulation"
        (mainLabels.take 4) (mainLabels.drop 6)
        rfl rfl rfl (by decide)
        (fun env n => blockOf_check_once
          [Ev.info "\n===== STEP 6: TABULATING REPRESENTATIVE SEQUENCES =====" "info"] spec6 rfl env n)
        (List.forall₂_take 4 mainBlocks_allOk) (List.forall₂_drop 6 mainBlocks_allOk)
        (by decide) (by decide)
        env n es n₁ stderr hreach hchk herr
  · exact warn_then_check mainBlocks (mainBlocks.take 5) (mainBlocks.drop 7) block7
        [Ev.info "\n===== STEP 6: TABULATING REPRESENTATIVE SEQUENCES =====" "info"] spec6
        "Feature table summarization"
        (mainLabels.take 5) (mainLabels.drop 7)
        rfl rfl rfl (by decide)
        (fun env n => blockOf_check_once
          [Ev.info "\n===== STEP 7: SUMMARIZING FEATURE TABLE =====" "info"] spec7 rfl env n)
        (List.forall₂_take 5 mainBlocks_allOk) (List.forall₂_drop 7 mainBlocks_allOk)
        (by decide) (by decide)
        env n es n₁ stderr hreach hchk herr
  · exact warn_then_check mainBlocks (mainBlocks.take 6) (mainBlocks.drop 8) block8
        [Ev.info "\n===== STEP 7: SUMMARIZING FEATURE TABLE =====" "info"] spec7
        "MAFFT alignment"
        (mainLabels.take 6) (mainLabels.drop 8)
        rfl rfl rfl (by decide)
        (fun env n => blockOf_check_once
          [Ev.info "\n===== STEP 8: ALIGNING SEQUENCES WITH MAFFT =====" "info"] spec8 rfl env n)
        (List.forall₂_take 6 mainBlocks_allOk) (List.forall₂_drop 8 mainBlocks_allOk)
        (by decide) (by decide)
        env n es n₁ stderr hreach hchk herr
  · exact warn_then_check mainBlocks (mainBlocks.take 13) (mainBlocks.drop 15) block15
        [Ev.info "\n===== STEP 14: VISUALIZING TAXONOMY =====" "info"] spec14
        "Feature table filtering"
        (mainLabels.take 13) (mainLabels.drop 15)
        rfl rfl rfl (by decide)
        (fun env n => blockOf_check_once
          [Ev.info "\n===== STEP 15: FILTERING FEATURE TABLE =====" "info"] spec15 rfl env n)
        (List.forall₂_take 13 mainBlocks_allOk) (List.forall₂_drop 15 mainBlocks_allOk)
        (by decide) (by decide)
        env n es n₁ stderr hreach hchk herr
  · exact warn_then_check mainBlocks (mainBlocks.take 17) (mainBlocks.drop 19) block19
        [Ev.info "\n===== STEP 18: SUMMARIZING COLLAPSED TABLE =====" "info"] spec18
        "Taxonomy barplot generation"
        (mainLabels.take 17) (mainLabels.drop 19)
        rfl rfl rfl (by decide)
        (fun env n => blockOf_check_once
          [Ev.info "\n===== STEP 19: GENERATING TAXONOMY BARPLOTS =====" "info"] spec19 rfl env n)
        (List.forall₂_take 17 mainBlocks_allOk) (List.forall₂_drop 19 mainBlocks_allOk)
        (by decide) (by decide)
        env n es n₁ stderr hreach hchk herr
  · exact warn_then_check mainBlocks (mainBlocks.take 18) (mainBlocks.drop 20) block20
        [Ev.info "\n===== STEP 19: GENERATING TAXONOMY BARPLOTS =====" "info"] spec19
        "Core metrics phylogenetic analysis"
        (mainLabels.take 18) (mainLabels.drop 20)
        rfl rfl rfl (by decide)
        block20_check_once
        (List.forall₂_take 18 mainBlocks_allOk) (List.forall₂_drop 20 mainBlocks_allOk)
        (by decide) (by decide)
        env n es n₁ stderr hreach hchk herr
  · exact warn_then_check mainBlocks (mainBlocks.take 20) (mainBlocks.drop 22) blockBiomConvert
        [Ev.info "\n===== STEP 21: EXPORTING ARTIFACTS TO USABLE FORMATS =====" "info",
           Ev.info "Creating exports directory for exported files..." "info",
           Ev.info "Exporting feature table to biom format..." "info"] specExportFeatureTable
        "Biom to TSV conversion"
        (mainLabels.take 20) (mainLabels.drop 22)
        rfl rfl rfl (by decide)
        (fun env n => blockOf_check_once
          [Ev.info "Converting feature table from biom to TSV format..." "info"] specBiomConvert rfl env n)
        (List.forall₂_take 20 mainBlocks_allOk) (List.forall₂_drop 22 mainBlocks_allOk)
        (by decide) (by decide)
        env n es n₁ stderr hreach hchk herr
  · exact warn_then_check mainBlocks (mainBlocks.take 21) (mainBlocks.drop 23) blockExportTaxonomy
        [Ev.info "Converting feature table from biom to TSV format..." "info"] specBiomConvert
        "Taxonomy export"
        (mainLabels.take 21) (mainLabels.drop 23)
        rfl rfl rfl (by decide)
        (fun env n => blockOf_check_once
          [Ev.info "Exporting taxonomy assignments..." "info"] specExportTaxonomy rfl env n)
        (List.forall₂_take 21 mainBlocks_allOk) (List.forall₂_drop 23 mainBlocks_allOk)
        (by decide) (by decide)
        env n es n₁ stderr hreach hchk herr
  · exact warn_then_check mainBlocks (mainBlocks.take 22) (mainBlocks.drop 24) blockExportRepSeqs
        [Ev.info "Exporting taxonomy assignments..." "info"] specExportTaxonomy
        "Representative sequences export"
        (mainLabels.take 22) (mainLabels.drop 24)
        rfl rfl rfl (by decide)
        (fun env n => blockOf_check_once
          [Ev.info "Exporting representative sequences..." "info"] specExportRepSeqs rfl env n)
        (List.forall₂_take 22 mainBlocks_allOk) (List.forall₂_drop 24 mainBlocks_allOk)
        (by decide) (by decide)
        env n es n₁ stderr hreach hchk herr
  · exact warn_then_check mainBlocks (mainBlocks.take 23) (mainBlocks.drop 25) blockExportPhylogeny
        [Ev.info "Exporting representative sequences..." "info"] specExportRepSeqs
        "Phylogenetic tree export"
        (mainLabels.take 23) (mainLabels.drop 25)
        rfl rfl rfl (by decide)
        (fun env n => blockOf_check_once
          [Ev.info "Exporting phylogenetic tree..." "info"] specExportPhylogeny rfl env n)
        (List.forall₂_take 23 mainBlocks_allOk) (List.forall₂_drop 25 mainBlocks_allOk)
        (by decide) (by decide)
        env n es n₁ stderr hreach hchk herr
  · exact warn_then_check mainBlocks (mainBlocks.take 27) (mainBlocks.drop 29) blockCollapsedConvert
        [Ev.info "Exporting collapsed taxonomic table..." "info"] specExportCollapsed
        "Collapsed biom to TSV conversion"
        (mainLabels.take 27) (mainLabels.drop 29)
        rfl rfl rfl (by decide)
        (fun env n => blockOf_check_once
          [Ev.info "Converting collapsed table from biom to TSV format..." "info"] specCollapsedConvert rfl env n)
        (List.forall₂_take 27 mainBlocks_allOk) (List.forall₂_drop 29 mainBlocks_allOk)
        (by decide) (by decide)
        env n es n₁ stderr hreach hchk herr

/-- Oracles for a run on which everything exists except stage 5's output,
and exactly stage 5's command fails. -/
def c5Env : Env :=
  { fs := { isDir := fun _ => true, isFile := fun _ => true,
            pathExists := fun f => !(f == "dada-denoising-stats-summ.qzv") },
    proc := fun c => if c == cmd5 then POutcome.err "boom" else POutcome.ok,
    inputs := fun _ => "" }

/-- Witness for C5 at the denoising-stats stage: its warn failure is
recorded and the next stage's Check still runs exactly once. -/
theorem warn_failure_continues_witness :
    Ev.result "Denoising stats tabulation" StageRes.failed ∈ (runBlocks mainBlocks c5Env 0).1 ∧
    Ev.info "Failed to tabulate denoising stats. Continuing anyway..." "warning"
      ∈ (runBlocks mainBlocks c5Env 0).1 ∧
    ((runBlocks mainBlocks c5Env 0).1).countP (isCheckOf "Representative sequences tabulation") = 1 :=
  warn_failure_continues (4, spec5, "Representative sequences tabulation")
    (List.mem_cons_self _ _) c5Env 0
    (runBlocks (mainBlocks.take 4) c5Env 0).1
    (runBlocks (mainBlocks.take 4) c5Env 0).2.1 "boom" rfl rfl rfl
